import Mathlib

/-
Verification of the vacuum-map rendering core: a shallow embedding of the
data model (`map_data.py`), the color/size resolvers (`config/*.py`) and the
image generator (`image_generator.py`), together with theorems settling the
specified properties.  Real-valued (float) arithmetic is embedded as `ℝ`;
Python `int(...)` truncation is `pytrunc`; PIL raster calls are recorded as a
trace of draw operations on a `PILImage`.
-/

namespace VMP

/-- Python `int(r)` on a float: truncation toward zero. -/
noncomputable def pytrunc (r : ℝ) : ℤ := if r < 0 then ⌈r⌉ else ⌊r⌋

/-- `map_data.Point`: a point on a map, with an optional angle. -/
structure Point where
  x : ℝ
  y : ℝ
  a : Option ℝ := none

/-- `Point.__mul__`: scales both coordinates, keeps the angle. -/
def Point.mul (p : Point) (s : ℝ) : Point :=
  { x := p.x * s, y := p.y * s, a := p.a }

/-- `map_data.ImageDimensions`: per-render geometry context. -/
structure ImageDimensions where
  top : ℤ
  left : ℤ
  height : ℤ
  width : ℤ
  scale : ℝ
  rotation : ℝ
  img_transformation : Point → Point

/-- `ImageDimensions.to_img`: pre-transform, subtract `(left, top)`, flip the
y-axis about the trimmed height, then scale.  The produced point has no
angle. -/
def ImageDimensions.to_img (d : ImageDimensions) (p : Point) : Point :=
  let q := d.img_transformation p
  { x := (q.x - (d.left : ℝ)) * d.scale
    y := ((d.height : ℝ) - (q.y - (d.top : ℝ)) - 1) * d.scale
    a := none }

/-- The `while alpha > 0` loop of `Point.rotated`: each step maps
`(x, y) ↦ (y, w - x)` and swaps the dimensions. -/
def rotate_steps : ℕ → ℝ → ℝ → ℝ → ℝ → ℝ × ℝ
  | 0, x, y, _, _ => (x, y)
  | n + 1, x, y, w, h => rotate_steps n y (w - x) h w

/-- The general trigonometric branch of `Point.rotated`: rotation about the
image center with the rotated bounding box `|w·cos a| + |h·sin a|` by
`|w·sin a| + |h·cos a|`. -/
noncomputable def rotated_general (alpha w h x y : ℝ) : ℝ × ℝ :=
  let xm := w / 2
  let ym := h / 2
  let a := alpha * Real.pi / 180
  let wr := |w * Real.cos a| + |h * Real.sin a|
  let hr := |w * Real.sin a| + |h * Real.cos a|
  ((x - xm) * Real.cos a + (y - ym) * Real.sin a + wr / 2,
   -(x - xm) * Real.sin a + (y - ym) * Real.cos a + hr / 2)

/-- `Point.rotated`: for rotations that are exact multiples of 90 degrees
(`alpha % 90 == 0` in the source) performs `⌊alpha/90⌋` discrete steps,
otherwise the general trigonometric rotation.  `w` and `h` are
`int(width * scale)` and `int(height * scale)`. -/
noncomputable def Point.rotated (p : Point) (d : ImageDimensions) : Point :=
  let alpha := d.rotation
  let w : ℝ := (pytrunc ((d.width : ℝ) * d.scale) : ℝ)
  let h : ℝ := (pytrunc ((d.height : ℝ) * d.scale) : ℝ)
  if alpha = 90 * (⌊alpha / 90⌋ : ℝ) then
    let r := rotate_steps (⌊alpha / 90⌋).toNat p.x p.y w h
    { x := r.1, y := r.2, a := none }
  else
    let r := rotated_general alpha w h p.x p.y
    { x := r.1, y := r.2, a := none }

/-- `config.color.Color`: a 3-tuple (RGB) or 4-tuple (RGBA) of channel
values, embedded as a list of integers. -/
abbrev Color := List ℤ

/-- `config.color.SupportedColor`: the closed enumeration of visual roles. -/
inductive SupportedColor where
  | carpets
  | charger
  | charger_outline
  | cleaned_area
  | goto_path
  | grey_wall
  | ignored_obstacle
  | ignored_obstacle_with_photo
  | map_inside
  | map_outside
  | map_wall
  | map_wall_v2
  | mop_path
  | new_discovered_area
  | no_carpet_zones
  | no_carpet_zones_outline
  | no_go_zones
  | no_go_zones_outline
  | no_mop_zones
  | no_mop_zones_outline
  | obstacle
  | obstacle_with_photo
  | path
  | predicted_path
  | robo
  | robo_outline
  | room_names
  | scan
  | unknown
  | virtual_walls
  | zones
  | zones_outline
deriving DecidableEq, Fintype

/-- `ColorsPalette.COLORS`: the built-in color table.  It is a partial map:
the `mop_path` role has no entry in the source dictionary. -/
def COLORS : SupportedColor → Option Color
  | .map_inside => some [32, 115, 185]
  | .map_outside => some [19, 87, 148]
  | .map_wall => some [100, 196, 254]
  | .map_wall_v2 => some [93, 109, 126]
  | .grey_wall => some [93, 109, 126]
  | .cleaned_area => some [127, 127, 127, 127]
  | .path => some [147, 194, 238]
  | .goto_path => some [0, 255, 0]
  | .predicted_path => some [255, 255, 0]
  | .zones => some [173, 216, 255, 143]
  | .zones_outline => some [173, 216, 255]
  | .virtual_walls => some [255, 0, 0]
  | .new_discovered_area => some [64, 64, 64]
  | .carpets => some [169, 247, 169]
  | .no_carpet_zones => some [255, 33, 55, 127]
  | .no_carpet_zones_outline => some [255, 0, 0]
  | .no_go_zones => some [255, 33, 55, 127]
  | .no_go_zones_outline => some [255, 0, 0]
  | .no_mop_zones => some [163, 130, 211, 127]
  | .no_mop_zones_outline => some [163, 130, 211]
  | .charger => some [102, 254, 218, 127]
  | .charger_outline => some [102, 254, 218, 127]
  | .robo => some [255, 255, 255]
  | .robo_outline => some [0, 0, 0]
  | .room_names => some [0, 0, 0]
  | .obstacle => some [0, 0, 0, 128]
  | .ignored_obstacle => some [0, 0, 0, 128]
  | .obstacle_with_photo => some [0, 0, 0, 128]
  | .ignored_obstacle_with_photo => some [0, 0, 0, 128]
  | .unknown => some [0, 0, 0]
  | .scan => some [223, 223, 223]
  | .mop_path => none

/-- `ColorsPalette.ROOM_COLORS`: the built-in 16-entry room color table,
keyed by decimal strings. -/
def ROOM_COLORS : List (String × Color) :=
  [("1", [240, 178, 122]),
   ("2", [133, 193, 233]),
   ("3", [217, 136, 128]),
   ("4", [52, 152, 219]),
   ("5", [205, 97, 85]),
   ("6", [243, 156, 18]),
   ("7", [88, 214, 141]),
   ("8", [245, 176, 65]),
   ("9", [252, 212, 81]),
   ("10", [72, 201, 176]),
   ("11", [84, 153, 199]),
   ("12", [133, 193, 233]),
   ("13", [245, 176, 65]),
   ("14", [82, 190, 128]),
   ("15", [72, 201, 176]),
   ("16", [165, 105, 189])]

def room_colors_lookup (key : String) : Option Color := ROOM_COLORS.lookup key

/-- `config.color.ColorsPalette`: override mappings plus the instance-local
pseudo-random source.  `rnd` is the value `self._random.randint(1, 16)`
yields for the current call (the random draw made explicit). -/
structure ColorsPalette where
  overriden_colors : SupportedColor → Option Color
  overriden_room_colors : String → Option Color
  rnd : ℤ

/-- `ColorsPalette.get_color`: override mapping, else built-in table, else
the built-in `unknown` entry, else opaque black. -/
def ColorsPalette.get_color (p : ColorsPalette) (color_name : SupportedColor) : Color :=
  (p.overriden_colors color_name).getD
    ((COLORS color_name).getD ((COLORS SupportedColor.unknown).getD [0, 0, 0]))

/-- `ColorsPalette.get_room_color` on an integer id: ids above the table
size wrap via `(id - 1) % len + 1`; the key is the id's decimal string;
fallback chain override, built-in, random entry, black. -/
def ColorsPalette.get_room_color_int (p : ColorsPalette) (room_id : ℤ) : Color :=
  let rid := if (ROOM_COLORS.length : ℤ) < room_id
    then (room_id - 1) % (ROOM_COLORS.length : ℤ) + 1 else room_id
  let key := toString rid
  (p.overriden_room_colors key).getD
    ((room_colors_lookup key).getD
      ((room_colors_lookup (toString p.rnd)).getD [0, 0, 0]))

/-- A room id as passed to `get_room_color`: an integer or a string. -/
inductive RoomId where
  | int (i : ℤ)
  | str (s : String)

/-- `ColorsPalette.get_room_color`: a string id is first converted with
`int(...)`, which fails (raises) on a non-numeric string. -/
def ColorsPalette.get_room_color (p : ColorsPalette) : RoomId → Option Color
  | .int i => some (p.get_room_color_int i)
  | .str s => (s.toInt?).map p.get_room_color_int

/-- A palette with no overrides and a fixed random draw. -/
def empty_palette (rnd : ℤ) : ColorsPalette :=
  { overriden_colors := fun _ => none
    overriden_room_colors := fun _ => none
    rnd := rnd }

/-- A loaded PIL font (`ImageFont.truetype` result). -/
structure Font where
  file : String
  size : ℤ

/-- One recorded raster call on a PIL image or drawing context. -/
inductive DrawOp where
  | line (coords : List ℝ) (fill : Color) (width : ℤ)
  | ellipse (coords : List ℝ) (outline : Option Color) (fill : Option Color)
  | pieslice (corner0 : ℝ × ℝ) (corner1 : ℝ × ℝ) (start stop : ℝ)
      (outline : Option Color) (fill : Option Color)
  | polygon (coords : List ℝ) (fill : Color) (outline : Color)
  | text (x y : ℝ) (content : String) (font : Option Font) (color : Color)
  | transpose (deg : ℕ)
  | rotate (angle : ℝ) (fill : Color)
  | composite (width height : ℤ) (scale : ℝ) (ops : List DrawOp)

/-- A PIL RGBA image: its pixel buffer, modelled as creation size,
creation background and the trace of raster calls applied to it. -/
structure PILImage where
  width : ℤ
  height : ℤ
  background : Color
  ops : List DrawOp

/-- `ImageGenerator._use_transparency`: any color with a 4th channel. -/
def use_transparency (colors : List Color) : Bool :=
  colors.any fun c => 3 < c.length

/-- `ImageGenerator._draw_on_new_layer`: with `scale == 1` and no
transparency draws directly onto the buffer; otherwise draws on a fresh
transparent layer of size `image.size * scale`, downsampled back when
`scale != 1`, and alpha-composited onto the buffer. -/
noncomputable def draw_on_new_layer (img : PILImage) (draw_ops : List DrawOp)
    (scale : ℝ) (transparency : Bool) : PILImage :=
  if scale = 1 ∧ transparency = false then
    { img with ops := img.ops ++ draw_ops }
  else
    { img with ops := img.ops ++
        [DrawOp.composite (pytrunc ((img.width : ℝ) * scale))
          (pytrunc ((img.height : ℝ) * scale)) scale draw_ops] }

/-- `config.image_config.TrimConfig`: trim percentages. -/
structure TrimConfig where
  left : ℝ := 0
  right : ℝ := 0
  top : ℝ := 0
  bottom : ℝ := 0

/-- `config.image_config.ImageConfig`. -/
structure ImageConfig where
  scale : ℝ := 1
  rotate : ℝ := 0
  trim : TrimConfig := {}

/-- `map_data.ImageData`: pixel buffer, geometry, emptiness flag and named
pre-rendered additional layers. -/
structure ImageData where
  size : ℤ
  dimensions : ImageDimensions
  is_empty : Bool
  data : PILImage
  additional_layers : List (String × PILImage)

/-- `ImageData.__init__`: trims are `int(pct * extent / 100)`, the
dimensions are the post-trim bounds, and `is_empty` is computed from the
untrimmed `height`/`width`; `None` additional layers are dropped. -/
noncomputable def mk_image_data (size top left height width : ℤ)
    (image_config : ImageConfig) (data : PILImage)
    (img_transformation : Point → Point)
    (additional_layers : List (String × Option PILImage)) : ImageData :=
  let trim_left := pytrunc (image_config.trim.left * (width : ℝ) / 100)
  let trim_right := pytrunc (image_config.trim.right * (width : ℝ) / 100)
  let trim_top := pytrunc (image_config.trim.top * (height : ℝ) / 100)
  let trim_bottom := pytrunc (image_config.trim.bottom * (height : ℝ) / 100)
  { size := size
    dimensions :=
      { top := top + trim_bottom
        left := left + trim_left
        height := height - trim_top - trim_bottom
        width := width - trim_left - trim_right
        scale := image_config.scale
        rotation := image_config.rotate
        img_transformation := img_transformation }
    is_empty := decide (height = 0 ∨ width = 0)
    data := data
    additional_layers := additional_layers.filterMap fun nl => nl.2.map fun l => (nl.1, l) }

/-- `map_data.Path`. -/
structure Path where
  point_length : Option ℤ
  point_size : Option ℤ
  angle : Option ℤ
  path : List (List Point)

/-- `map_data.Zone`. -/
structure Zone where
  x0 : ℝ
  y0 : ℝ
  x1 : ℝ
  y1 : ℝ

/-- `map_data.Area`. -/
structure Area where
  x0 : ℝ
  y0 : ℝ
  x1 : ℝ
  y1 : ℝ
  x2 : ℝ
  y2 : ℝ
  x3 : ℝ
  y3 : ℝ

/-- `Zone.as_area`. -/
def Zone.as_area (z : Zone) : Area :=
  ⟨z.x0, z.y0, z.x0, z.y1, z.x1, z.y1, z.x1, z.y0⟩

def Area.as_list (a : Area) : List ℝ :=
  [a.x0, a.y0, a.x1, a.y1, a.x2, a.y2, a.x3, a.y3]

def Area.to_img (a : Area) (d : ImageDimensions) : Area :=
  let p0 := d.to_img ⟨a.x0, a.y0, none⟩
  let p1 := d.to_img ⟨a.x1, a.y1, none⟩
  let p2 := d.to_img ⟨a.x2, a.y2, none⟩
  let p3 := d.to_img ⟨a.x3, a.y3, none⟩
  ⟨p0.x, p0.y, p1.x, p1.y, p2.x, p2.y, p3.x, p3.y⟩

/-- `map_data.Room`: a zone with a number, an optional name and an optional
labelled anchor. -/
structure Room where
  x0 : ℝ
  y0 : ℝ
  x1 : ℝ
  y1 : ℝ
  number : ℤ
  name : Option String := none
  pos_x : Option ℝ := none
  pos_y : Option ℝ := none

/-- `Room.point`: the anchor, present only when both coordinates and the
name are set. -/
def Room.point (r : Room) : Option Point :=
  match r.pos_x, r.pos_y, r.name with
  | some px, some py, some _ => some ⟨px, py, none⟩
  | _, _, _ => none

/-- `map_data.Wall`. -/
structure Wall where
  x0 : ℝ
  y0 : ℝ
  x1 : ℝ
  y1 : ℝ

def Wall.to_img (w : Wall) (d : ImageDimensions) : Wall :=
  let p0 := d.to_img ⟨w.x0, w.y0, none⟩
  let p1 := d.to_img ⟨w.x1, w.y1, none⟩
  ⟨p0.x, p0.y, p1.x, p1.y⟩

def Wall.as_list (w : Wall) : List ℝ :=
  [w.x0, w.y0, w.x1, w.y1]

/-- `map_data.ObstacleDetails`. -/
structure ObstacleDetails where
  type : Option ℤ := none
  description : Option String := none
  confidence_level : Option ℝ := none
  photo_name : Option String := none

/-- `map_data.Obstacle`: a point with metadata. -/
structure Obstacle where
  x : ℝ
  y : ℝ
  details : ObstacleDetails

/-- `map_data.MapData`: the aggregate root, every map field optional.
`carpet_map` starts as an empty set; `blocks` starts as `None`. -/
structure MapData where
  calibration_center : ℝ := 0
  calibration_diff : ℝ := 0
  blocks : Option Unit := none
  charger : Option Point := none
  goto : Option (List Point) := none
  goto_path : Option Path := none
  image : Option ImageData := none
  no_go_areas : Option (List Area) := none
  no_mopping_areas : Option (List Area) := none
  no_carpet_areas : Option (List Area) := none
  carpet_map : Option (List ℤ) := some []
  obstacles : Option (List Obstacle) := none
  ignored_obstacles : Option (List Obstacle) := none
  obstacles_with_photo : Option (List Obstacle) := none
  ignored_obstacles_with_photo : Option (List Obstacle) := none
  path : Option Path := none
  predicted_path : Option Path := none
  mop_path : Option Path := none
  rooms : Option (List (ℤ × Room)) := none
  vacuum_position : Option Point := none
  vacuum_room : Option ℤ := none
  vacuum_room_name : Option String := none
  walls : Option (List Wall) := none
  zones : Option (List Zone) := none
  cleaned_rooms : Option (List ℤ) := none
  map_name : Option String := none

/-- One exported calibration pair `{vacuum: {x, y}, map: {x, y}}`. -/
structure CalibrationPoint where
  vacuum : ℝ × ℝ
  map : ℝ × ℝ

/-- `MapData.calibration`: `None` when the image is absent or empty,
otherwise three points anchored at the configured center and offset by ten
times the configured diff along each axis, converted with
`to_img` then `rotated`. -/
noncomputable def MapData.calibration (m : MapData) : Option (List CalibrationPoint) :=
  match m.image with
  | none => none
  | some img =>
    if img.is_empty then none
    else
      let c := m.calibration_center
      let d := m.calibration_diff
      let pts : List Point := [⟨c, c, none⟩, ⟨c + d * 10, c, none⟩, ⟨c, c + d * 10, none⟩]
      some (pts.map fun p =>
        let ip := (img.dimensions.to_img p).rotated img.dimensions
        { vacuum := (p.x, p.y), map := (ip.x, ip.y) })

/-- `config.text.Text`. -/
structure Text where
  text : String
  x : ℝ
  y : ℝ
  color : Color := [0, 0, 0]
  font : Option String := none
  font_size : Option ℤ := none

/-- `config.drawable.Drawable`: the closed enumeration of drawable kinds. -/
inductive Drawable where
  | charger
  | cleaned_area
  | goto_path
  | ignored_obstacles
  | ignored_obstacles_with_photo
  | mop_path
  | no_carpet_areas
  | no_go_areas
  | no_mopping_areas
  | obstacles
  | obstacles_with_photo
  | path
  | predicted_path
  | room_names
  | vacuum_position
  | virtual_walls
  | zones
deriving DecidableEq

/-- The string value of each drawable kind (its `StrEnum` value, also the
key of the matching additional layer). -/
def Drawable.value : Drawable → String
  | .charger => "charger"
  | .cleaned_area => "cleaned_area"
  | .goto_path => "goto_path"
  | .ignored_obstacles => "ignored_obstacles"
  | .ignored_obstacles_with_photo => "ignored_obstacles_with_photo"
  | .mop_path => "mop_path"
  | .no_carpet_areas => "no_carpet_zones"
  | .no_go_areas => "no_go_zones"
  | .no_mopping_areas => "no_mopping_zones"
  | .obstacles => "obstacles"
  | .obstacles_with_photo => "obstacles_with_photo"
  | .path => "path"
  | .predicted_path => "predicted_path"
  | .room_names => "room_names"
  | .vacuum_position => "vacuum_position"
  | .virtual_walls => "virtual_walls"
  | .zones => "zones"

/-- `config.size.Size`: the closed enumeration of size names. -/
inductive SizeName where
  | charger_radius
  | ignored_obstacle_radius
  | ignored_obstacle_with_photo_radius
  | mop_path_width
  | obstacle_radius
  | obstacle_with_photo_radius
  | vacuum_radius
  | path_width
deriving DecidableEq

/-- `Sizes.SIZES`: the built-in size table (no entry for
`mop_path_width`). -/
def SIZES : SizeName → Option ℝ
  | .vacuum_radius => some 6
  | .path_width => some 1
  | .ignored_obstacle_radius => some 3
  | .ignored_obstacle_with_photo_radius => some 3
  | .obstacle_radius => some 3
  | .obstacle_with_photo_radius => some 3
  | .charger_radius => some 6
  | .mop_path_width => none

/-- `config.size.Sizes`. -/
structure Sizes where
  overriden_sizes : SizeName → Option ℝ

/-- `Sizes.get_size`: override, else built-in table, else 1. -/
noncomputable def Sizes.get_size (s : Sizes) (size : SizeName) : ℝ :=
  (s.overriden_sizes size).getD ((SIZES size).getD 1)

/-- `image_generator.ImageGenerator`: configuration plus the behavior of
the external raster library's text calls (`draw.textbbox` and
`ImageFont.truetype`, the latter `none` when loading raises). -/
structure ImageGenerator where
  palette : ColorsPalette
  sizes : Sizes
  drawables : List Drawable
  image_config : ImageConfig
  texts : List Text
  textbbox : Option Font → String → ℝ × ℝ × ℝ × ℝ
  truetype : String → ℤ → Option Font

def ImageGenerator.get_color (g : ImageGenerator) (name : SupportedColor) : Color :=
  g.palette.get_color name

noncomputable def ImageGenerator.get_size (g : ImageGenerator) (size : SizeName) : ℝ :=
  g.sizes.get_size size

/-- Replace the pixel buffer of an `ImageData`, leaving everything else. -/
def set_data (img : ImageData) (buf : PILImage) : ImageData :=
  { img with data := buf }

/-- `ImageGenerator._draw_circle`. -/
noncomputable def draw_circle (img : ImageData) (center : Point) (r : ℝ)
    (outline fill : Color) : ImageData :=
  let point := img.dimensions.to_img center
  set_data img (draw_on_new_layer img.data
    [DrawOp.ellipse [point.x - r, point.y - r, point.x + r, point.y + r]
      (some outline) (some fill)]
    1 (use_transparency [outline, fill]))

/-- `ImageGenerator._draw_pieslice`: a half-disc spanning heading ± 90. -/
noncomputable def draw_pieslice (img : ImageData) (position : Point) (r : ℝ)
    (outline fill : Color) : ImageData :=
  let point := img.dimensions.to_img position
  let angle := match position.a with
    | some a => -a
    | none => 0
  set_data img (draw_on_new_layer img.data
    [DrawOp.pieslice (point.x - r, point.y - r) (point.x + r, point.y + r)
      (angle + 90) (angle - 90) (some outline) (some fill)]
    1 (use_transparency [outline, fill]))

/-- `ImageGenerator._draw_all_obstacles`: one circle call per obstacle. -/
noncomputable def draw_all_obstacles (img : ImageData) (obstacles : List Obstacle)
    (r : ℝ) (color : Color) : ImageData :=
  obstacles.foldl (fun im ob => draw_circle im ⟨ob.x, ob.y, none⟩ r color color) img

/-- The raster calls of `ImageGenerator._draw_vacuum`'s `draw_func`, with
the (already defaulted) heading `a`: body ellipse, optional secondary
outline when the radius is at least 8, bin-cover line at heading ± 104,
lidar dot and button dot. -/
noncomputable def draw_vacuum_ops (img : ImageData) (vacuum_pos : Point) (a : ℝ)
    (r : ℝ) (outline fill : Color) : List DrawOp :=
  let point := img.dimensions.to_img vacuum_pos
  let r_scaled := r / 16
  let body := [DrawOp.ellipse
    [point.x - r, point.y - r, point.x + r, point.y + r] (some outline) (some fill)]
  let second :=
    if 8 ≤ r then
      let r2 := r_scaled * 14
      [DrawOp.ellipse [point.x - r2, point.y - r2, point.x + r2, point.y + r2]
        (some outline) none]
    else []
  let a1 := (a + 104) / 180 * Real.pi
  let a2 := (a - 104) / 180 * Real.pi
  let rb := r_scaled * 13
  let bin_cover := [DrawOp.line
    [point.x - rb * Real.cos a1, point.y + rb * Real.sin a1,
     point.x - rb * Real.cos a2, point.y + rb * Real.sin a2] outline 1]
  let angle := a / 180 * Real.pi
  let lx := point.x + r_scaled * 3 * Real.cos angle
  let ly := point.y - r_scaled * 3 * Real.sin angle
  let rl := r_scaled * 4
  let lidar := [DrawOp.ellipse [lx - rl, ly - rl, lx + rl, ly + rl]
    (some outline) (some fill)]
  let half_color : Color :=
    [Int.fdiv (outline.getD 0 0 + fill.getD 0 0) 2,
     Int.fdiv (outline.getD 1 0 + fill.getD 1 0) 2,
     Int.fdiv (outline.getD 2 0 + fill.getD 2 0) 2]
  let bx := point.x + r_scaled * 10 * Real.cos angle
  let bty := point.y - r_scaled * 10 * Real.sin angle
  let rbn := r_scaled * 2
  let button := [DrawOp.ellipse [bx - rbn, bty - rbn, bx + rbn, bty + rbn]
    (some half_color) (some half_color)]
  body ++ second ++ bin_cover ++ lidar ++ button

/-- `ImageGenerator._draw_vacuum` applied to the buffer. -/
noncomputable def draw_vacuum (img : ImageData) (vacuum_pos : Point) (a : ℝ)
    (r : ℝ) (outline fill : Color) : ImageData :=
  set_data img (draw_on_new_layer img.data
    (draw_vacuum_ops img vacuum_pos a r outline fill)
    1 (use_transparency [outline, fill]))

/-- `ImageGenerator._draw_areas`: no-op for an empty list, else one
polygon layer call per area. -/
noncomputable def draw_areas (img : ImageData) (areas : List Area)
    (fill outline : Color) : ImageData :=
  match areas with
  | [] => img
  | _ =>
    let ut := use_transparency [outline, fill]
    set_data img (areas.foldl (fun buf area =>
      draw_on_new_layer buf
        [DrawOp.polygon ((area.to_img img.dimensions).as_list) fill outline] 1 ut)
      img.data)

/-- The buffer update of `ImageGenerator._draw_walls`: all wall segments on
one layer. -/
noncomputable def draw_walls_img (img : ImageData) (walls : List Wall)
    (color : Color) : ImageData :=
  set_data img (draw_on_new_layer img.data
    (walls.map fun w => DrawOp.line ((w.to_img img.dimensions).as_list) color 2)
    1 (use_transparency [color]))

/-- The inner loop of `ImageGenerator._draw_path`'s `draw_func`: one line
per consecutive pair, and when the configured width exceeds 4, full-circle
pieslice caps of radius `scale * width / 2` (at the start point only on the
first segment, and at every segment end). -/
noncomputable def path_segment_ops (dims : ImageDimensions) (scale path_width : ℝ)
    (color : Color) : Point → Bool → List Point → List DrawOp
  | _, _, [] => []
  | s, first, q :: rest =>
    let e := (dims.to_img q).mul scale
    let seg := [DrawOp.line [s.x, s.y, e.x, e.y] color (pytrunc (scale * path_width))]
    let caps :=
      if 4 < path_width then
        let r := scale * path_width / 2
        (if first then
          [DrawOp.pieslice (s.x - r, s.y - r) (s.x + r, s.y + r) 0 360
            (some color) (some color)]
        else []) ++
        [DrawOp.pieslice (e.x - r, e.y - r) (e.x + r, e.y + r) 0 360
          (some color) (some color)]
      else []
    seg ++ caps ++ path_segment_ops dims scale path_width color e false rest

/-- The raster calls one polyline contributes: nothing unless it has at
least two points. -/
noncomputable def polyline_ops (dims : ImageDimensions) (scale path_width : ℝ)
    (color : Color) : List Point → List DrawOp
  | p :: q :: rest =>
    path_segment_ops dims scale path_width color ((dims.to_img p).mul scale) true (q :: rest)
  | _ => []

/-- `ImageGenerator._draw_path`: early return when the path holds no
polyline, else one supersampled layer holding every polyline's calls. -/
noncomputable def draw_path_img (g : ImageGenerator) (img : ImageData)
    (path : Path) (path_width : ℝ) (color : Color) : ImageData :=
  match path.path with
  | [] => img
  | _ =>
    let scale := g.image_config.scale
    set_data img (draw_on_new_layer img.data
      ((path.path.map (polyline_ops img.dimensions scale path_width color)).flatten)
      scale (use_transparency [color]))

/-- `ImageGenerator._draw_text`: optional font loading (failure falls back
to the default font), bounding box measurement, then one centered text
call. -/
noncomputable def draw_text_img (g : ImageGenerator) (img : ImageData)
    (text : String) (x y : ℝ) (color : Color)
    (font_file : Option String) (font_size : Option ℤ) : ImageData :=
  let font : Option Font :=
    match font_file, font_size with
    | some f, some s => if 0 < s then g.truetype f s else none
    | _, _ => none
  let bbox := g.textbbox font text
  let w := bbox.2.2.1 - bbox.1
  let h := bbox.2.2.2 - bbox.2.1
  set_data img (draw_on_new_layer img.data
    [DrawOp.text (x - w / 2) (y - h / 2) text font color]
    1 (use_transparency [color]))

/-- `ImageGenerator._draw_layer_with_alpha`: alpha-composite a pre-rendered
layer onto the buffer. -/
def draw_layer_with_alpha (img : ImageData) (layer : PILImage) : ImageData :=
  set_data img { img.data with
    ops := img.data.ops ++ [DrawOp.composite layer.width layer.height 1 layer.ops] }

/-- `ImageGenerator._rotate`: exact transposes at 90/180/270, else a
general expanding rotation filled with the outside-map color (the expanded
canvas size follows PIL's rotated bounding box). -/
noncomputable def rotate_image (g : ImageGenerator) (img : ImageData) : ImageData :=
  if img.dimensions.rotation = 90 then
    set_data img ⟨img.data.height, img.data.width, img.data.background,
      img.data.ops ++ [DrawOp.transpose 90]⟩
  else if img.dimensions.rotation = 180 then
    set_data img { img.data with ops := img.data.ops ++ [DrawOp.transpose 180] }
  else if img.dimensions.rotation = 270 then
    set_data img ⟨img.data.height, img.data.width, img.data.background,
      img.data.ops ++ [DrawOp.transpose 270]⟩
  else
    let a := img.dimensions.rotation * Real.pi / 180
    set_data img
      ⟨⌈|(img.data.width : ℝ) * Real.cos a| + |(img.data.height : ℝ) * Real.sin a|⌉,
       ⌈|(img.data.width : ℝ) * Real.sin a| + |(img.data.height : ℝ) * Real.cos a|⌉,
       img.data.background,
       img.data.ops ++ [DrawOp.rotate img.dimensions.rotation (g.get_color .map_outside)]⟩

/-- `ImageGenerator._draw_texts`: each annotation at a percentage position
of the current buffer size. -/
noncomputable def draw_texts (g : ImageGenerator) (img : ImageData) : ImageData :=
  g.texts.foldl (fun im t =>
    draw_text_img g im t.text (t.x * (im.data.width : ℝ) / 100)
      (t.y * (im.data.height : ℝ) / 100) t.color t.font t.font_size) img

/-- `ImageGenerator._draw_charger`. -/
noncomputable def ImageGenerator.draw_charger (g : ImageGenerator) (m : MapData) : MapData :=
  match m.charger, m.image with
  | some ch, some img =>
    { m with image := some (draw_pieslice img ch (g.get_size .charger_radius)
        (g.get_color .charger_outline) (g.get_color .charger)) }
  | _, _ => m

/-- `ImageGenerator._draw_vacuum_position`: the only renderer that writes
back into the model: a missing heading is replaced by 0 before drawing. -/
noncomputable def ImageGenerator.draw_vacuum_position (g : ImageGenerator) (m : MapData) : MapData :=
  match m.vacuum_position, m.image with
  | some vp, some img =>
    let vp' : Point := { vp with a := some (vp.a.getD 0) }
    { m with
      vacuum_position := some vp'
      image := some (draw_vacuum img vp' (vp.a.getD 0) (g.get_size .vacuum_radius)
        (g.get_color .robo_outline) (g.get_color .robo)) }
  | _, _ => m

/-- `ImageGenerator._draw_obstacles`. -/
noncomputable def ImageGenerator.draw_obstacles (g : ImageGenerator) (m : MapData) : MapData :=
  match m.obstacles, m.image with
  | some obs, some img =>
    { m with image := some (draw_all_obstacles img obs
        (g.get_size .obstacle_radius) (g.get_color .obstacle)) }
  | _, _ => m

/-- `ImageGenerator._draw_ignored_obstacles`. -/
noncomputable def ImageGenerator.draw_ignored_obstacles (g : ImageGenerator) (m : MapData) : MapData :=
  match m.ignored_obstacles, m.image with
  | some obs, some img =>
    { m with image := some (draw_all_obstacles img obs
        (g.get_size .ignored_obstacle_radius) (g.get_color .ignored_obstacle)) }
  | _, _ => m

/-- `ImageGenerator._draw_obstacles_with_photo`. -/
noncomputable def ImageGenerator.draw_obstacles_with_photo (g : ImageGenerator) (m : MapData) : MapData :=
  match m.obstacles_with_photo, m.image with
  | some obs, some img =>
    { m with image := some (draw_all_obstacles img obs
        (g.get_size .obstacle_with_photo_radius) (g.get_color .obstacle_with_photo)) }
  | _, _ => m

/-- `ImageGenerator._draw_ignored_obstacles_with_photo`. -/
noncomputable def ImageGenerator.draw_ignored_obstacles_with_photo
    (g : ImageGenerator) (m : MapData) : MapData :=
  match m.ignored_obstacles_with_photo, m.image with
  | some obs, some img =>
    { m with image := some (draw_all_obstacles img obs
        (g.get_size .ignored_obstacle_with_photo_radius)
        (g.get_color .ignored_obstacle_with_photo)) }
  | _, _ => m

/-- `ImageGenerator._draw_vacuum_path`. -/
noncomputable def ImageGenerator.draw_vacuum_path (g : ImageGenerator) (m : MapData) : MapData :=
  match m.path, m.image with
  | some p, some img =>
    { m with image := some (draw_path_img g img p (g.get_size .path_width)
        (g.get_color .path)) }
  | _, _ => m

/-- `ImageGenerator._draw_goto_path`. -/
noncomputable def ImageGenerator.draw_goto_path (g : ImageGenerator) (m : MapData) : MapData :=
  match m.goto_path, m.image with
  | some p, some img =>
    { m with image := some (draw_path_img g img p (g.get_size .path_width)
        (g.get_color .goto_path)) }
  | _, _ => m

/-- `ImageGenerator._draw_predicted_path`. -/
noncomputable def ImageGenerator.draw_predicted_path (g : ImageGenerator) (m : MapData) : MapData :=
  match m.predicted_path, m.image with
  | some p, some img =>
    { m with image := some (draw_path_img g img p (g.get_size .path_width)
        (g.get_color .predicted_path)) }
  | _, _ => m

/-- `ImageGenerator._draw_mop_path`. -/
noncomputable def ImageGenerator.draw_mop_path (g : ImageGenerator) (m : MapData) : MapData :=
  match m.mop_path, m.image with
  | some p, some img =>
    { m with image := some (draw_path_img g img p (g.get_size .mop_path_width)
        (g.get_color .mop_path)) }
  | _, _ => m

/-- `ImageGenerator._draw_no_carpet_areas`. -/
noncomputable def ImageGenerator.draw_no_carpet_areas (g : ImageGenerator) (m : MapData) : MapData :=
  match m.no_carpet_areas, m.image with
  | some ars, some img =>
    { m with image := some (draw_areas img ars
        (g.get_color .no_carpet_zones) (g.get_color .no_carpet_zones_outline)) }
  | _, _ => m

/-- `ImageGenerator._draw_no_go_areas`. -/
noncomputable def ImageGenerator.draw_no_go_areas (g : ImageGenerator) (m : MapData) : MapData :=
  match m.no_go_areas, m.image with
  | some ars, some img =>
    { m with image := some (draw_areas img ars
        (g.get_color .no_go_zones) (g.get_color .no_go_zones_outline)) }
  | _, _ => m

/-- `ImageGenerator._draw_no_mopping_areas`. -/
noncomputable def ImageGenerator.draw_no_mopping_areas (g : ImageGenerator) (m : MapData) : MapData :=
  match m.no_mopping_areas, m.image with
  | some ars, some img =>
    { m with image := some (draw_areas img ars
        (g.get_color .no_mop_zones) (g.get_color .no_mop_zones_outline)) }
  | _, _ => m

/-- `ImageGenerator._draw_walls`. -/
noncomputable def ImageGenerator.draw_walls_r (g : ImageGenerator) (m : MapData) : MapData :=
  match m.walls, m.image with
  | some ws, some img =>
    { m with image := some (draw_walls_img img ws (g.get_color .virtual_walls)) }
  | _, _ => m

/-- `ImageGenerator._draw_zones`: zones drawn as areas. -/
noncomputable def ImageGenerator.draw_zones (g : ImageGenerator) (m : MapData) : MapData :=
  match m.zones, m.image with
  | some zs, some img =>
    { m with image := some (draw_areas img (zs.map Zone.as_area)
        (g.get_color .zones) (g.get_color .zones_outline)) }
  | _, _ => m

/-- `ImageGenerator._draw_room_names`: one text call per room whose anchor
and name are present. -/
noncomputable def ImageGenerator.draw_room_names (g : ImageGenerator) (m : MapData) : MapData :=
  match m.rooms, m.image with
  | some rooms, some img =>
    let color := g.get_color .room_names
    { m with image := some (rooms.foldl (fun im nr =>
        match nr.2.point, nr.2.name with
        | some p, some nm =>
          let pt := im.dimensions.to_img p
          draw_text_img g im nm pt.x pt.y color none none
        | _, _ => im) img) }
  | _, _ => m

/-- `ImageGenerator._draw_layer`: composite the named additional layer if
present. -/
def ImageGenerator.draw_layer_r (g : ImageGenerator) (m : MapData)
    (layer_name : String) : MapData :=
  match m.image with
  | some img =>
    match img.additional_layers.lookup layer_name with
    | some layer => { m with image := some (draw_layer_with_alpha img layer) }
    | none => m
  | none => m

/-- The `match drawable` dispatch of `ImageGenerator.draw_map`. -/
noncomputable def ImageGenerator.dispatch (g : ImageGenerator) (m : MapData) :
    Drawable → MapData
  | .charger => g.draw_charger m
  | .vacuum_position => g.draw_vacuum_position m
  | .obstacles => g.draw_obstacles m
  | .ignored_obstacles => g.draw_ignored_obstacles m
  | .obstacles_with_photo => g.draw_obstacles_with_photo m
  | .ignored_obstacles_with_photo => g.draw_ignored_obstacles_with_photo m
  | .mop_path => g.draw_mop_path m
  | .path => g.draw_vacuum_path m
  | .goto_path => g.draw_goto_path m
  | .predicted_path => g.draw_predicted_path m
  | .no_carpet_areas => g.draw_no_carpet_areas m
  | .no_go_areas => g.draw_no_go_areas m
  | .no_mopping_areas => g.draw_no_mopping_areas m
  | .virtual_walls => g.draw_walls_r m
  | .zones => g.draw_zones m
  | .cleaned_area => g.draw_layer_r m Drawable.cleaned_area.value
  | .room_names => g.draw_room_names m

/-- `self._rotate(map_data.image)` as a model step. -/
noncomputable def ImageGenerator.rotate_step (g : ImageGenerator) (n : MapData) : MapData :=
  match n.image with
  | some img => { n with image := some (rotate_image g img) }
  | none => n

/-- `self._draw_texts(map_data.image, self._texts)` as a model step. -/
noncomputable def ImageGenerator.texts_step (g : ImageGenerator) (n : MapData) : MapData :=
  match n.image with
  | some img => { n with image := some (draw_texts g img) }
  | none => n

/-- `ImageGenerator.draw_map`: no-op without an image, else dispatch every
configured drawable in order, rotate, then draw text annotations. -/
noncomputable def ImageGenerator.draw_map (g : ImageGenerator) (m : MapData) : MapData :=
  match m.image with
  | none => m
  | some _ =>
    g.texts_step (g.rotate_step (g.drawables.foldl (fun acc d => g.dispatch acc d) m))

/-- `ImageGenerator.create_empty_map_image`: a 300x200 RGBA placeholder on
the outside-map color with a centered caption, black on light backgrounds
(RGB channel sum above 382) and white otherwise. -/
noncomputable def ImageGenerator.create_empty_map_image (g : ImageGenerator)
    (text : String) : PILImage :=
  let color := g.get_color .map_outside
  let text_color : Color :=
    if 382 < (color.take 3).sum then [0, 0, 0] else [255, 255, 255]
  let bbox := g.textbbox none text
  let w := bbox.2.2.1 - bbox.1
  let h := bbox.2.2.2 - bbox.2.1
  { width := 300, height := 200, background := color,
    ops := [DrawOp.text ((300 - w) / 2) ((200 - h) / 2) text none text_color] }

/-- The pixel-buffer-only frame between two optional images: both absent,
or both present with every field but the buffer equal. -/
def image_frame : Option ImageData → Option ImageData → Prop
  | none, none => True
  | some i, some j =>
    j.size = i.size ∧ j.dimensions = i.dimensions ∧
    j.is_empty = i.is_empty ∧ j.additional_layers = i.additional_layers
  | _, _ => False

/-- The vacuum-position frame: unchanged, or its missing heading replaced
by 0. -/
def vac_frame (v w : Option Point) : Prop :=
  w = v ∨ ∃ p : Point, v = some p ∧ p.a = none ∧ w = some { p with a := some 0 }

/-- The renderer frame: every model field unchanged except the image's
pixel buffer and the vacuum heading default. -/
def map_frame (m n : MapData) : Prop :=
  n.calibration_center = m.calibration_center ∧
  n.calibration_diff = m.calibration_diff ∧
  n.blocks = m.blocks ∧
  n.charger = m.charger ∧
  n.goto = m.goto ∧
  n.goto_path = m.goto_path ∧
  n.no_go_areas = m.no_go_areas ∧
  n.no_mopping_areas = m.no_mopping_areas ∧
  n.no_carpet_areas = m.no_carpet_areas ∧
  n.carpet_map = m.carpet_map ∧
  n.obstacles = m.obstacles ∧
  n.ignored_obstacles = m.ignored_obstacles ∧
  n.obstacles_with_photo = m.obstacles_with_photo ∧
  n.ignored_obstacles_with_photo = m.ignored_obstacles_with_photo ∧
  n.path = m.path ∧
  n.predicted_path = m.predicted_path ∧
  n.mop_path = m.mop_path ∧
  n.rooms = m.rooms ∧
  n.vacuum_room = m.vacuum_room ∧
  n.vacuum_room_name = m.vacuum_room_name ∧
  n.walls = m.walls ∧
  n.zones = m.zones ∧
  n.cleaned_rooms = m.cleaned_rooms ∧
  n.map_name = m.map_name ∧
  image_frame m.image n.image ∧
  vac_frame m.vacuum_position n.vacuum_position

/-- A concrete generator configured to draw only the vacuum. -/
noncomputable def vacuum_only_gen : ImageGenerator :=
  ⟨empty_palette 1, ⟨fun _ => none⟩, [Drawable.vacuum_position], {}, [],
    fun _ _ => (0, 0, 0, 0), fun _ _ => none⟩

/-- A concrete map with an image and a vacuum whose heading is None. -/
def vacuum_no_angle_map : MapData :=
  { vacuum_position := some ⟨1, 2, none⟩,
    image := some ⟨0, ⟨0, 0, 5, 5, 1, 0, id⟩, false, ⟨5, 5, [0, 0, 0], []⟩, []⟩ }

/-- Two images equal in everything but the pixel buffer. -/
def data_only (i j : ImageData) : Prop :=
  j.size = i.size ∧ j.dimensions = i.dimensions ∧
  j.is_empty = i.is_empty ∧ j.additional_layers = i.additional_layers

/-- Count of straight-segment calls in a trace. -/
def count_line_ops (l : List DrawOp) : ℕ :=
  (l.filter fun op => match op with
    | .line _ _ _ => true
    | _ => false).length

/-- Count of pieslice (end-cap) calls in a trace. -/
def count_cap_ops (l : List DrawOp) : ℕ :=
  (l.filter fun op => match op with
    | .pieslice _ _ _ _ _ _ => true
    | _ => false).length

end VMP

namespace VMP

/-- C1: with `scale = 1`, `left = 0`, `top = 0` and the identity coordinate
pre-transformation, `to_img` keeps the x-coordinate and flips the pixel
y-axis about the trimmed height: `y_img = height - y - 1`. -/
theorem to_img_axis_flip (d : ImageDimensions) (p : Point)
    (hs : d.scale = 1) (hl : d.left = 0) (ht : d.top = 0)
    (htr : d.img_transformation = id) :
    (d.to_img p).x = p.x ∧ (d.to_img p).y = (d.height : ℝ) - p.y - 1 := by
  simp [ImageDimensions.to_img, hs, hl, ht, htr]

/-- C1 witness: a concrete 5-row image, point (2, 3) lands at (2, 1). -/
theorem to_img_axis_flip_witness :
    ((⟨0, 0, 5, 7, 1, 0, id⟩ : ImageDimensions).to_img ⟨2, 3, none⟩).x = 2 ∧
    ((⟨0, 0, 5, 7, 1, 0, id⟩ : ImageDimensions).to_img ⟨2, 3, none⟩).y = 1 := by
  have h := to_img_axis_flip ⟨0, 0, 5, 7, 1, 0, id⟩ ⟨2, 3, none⟩ rfl rfl rfl rfl
  refine ⟨h.1, ?_⟩
  rw [h.2]
  norm_num

lemma pytrunc_cast_nonneg {r : ℝ} (h : 0 ≤ r) : (0 : ℝ) ≤ ((pytrunc r : ℤ) : ℝ) := by
  unfold pytrunc
  rw [if_neg (not_lt.mpr h)]
  exact_mod_cast Int.floor_nonneg.mpr h

lemma pytrunc_intCast (n : ℤ) : pytrunc ((n : ℤ) : ℝ) = n := by
  unfold pytrunc
  rcases lt_or_ge ((n : ℤ) : ℝ) 0 with h | h
  · rw [if_pos h, Int.ceil_intCast]
  · rw [if_neg (not_lt.mpr h), Int.floor_intCast]

/-- Unfolding `Point.rotated` on the fast branch: an exact multiple of 90
degrees runs `⌊rotation/90⌋` discrete steps. -/
lemma rotated_fast_case (d : ImageDimensions) (p : Point) (k : ℕ) (r : ℝ)
    (hr : d.rotation = r)
    (hcond : r = 90 * (⌊r / 90⌋ : ℝ)) (hk : (⌊r / 90⌋).toNat = k) :
    p.rotated d =
      ⟨(rotate_steps k p.x p.y ((pytrunc ((d.width : ℝ) * d.scale)) : ℝ)
          ((pytrunc ((d.height : ℝ) * d.scale)) : ℝ)).1,
       (rotate_steps k p.x p.y ((pytrunc ((d.width : ℝ) * d.scale)) : ℝ)
          ((pytrunc ((d.height : ℝ) * d.scale)) : ℝ)).2, none⟩ := by
  unfold Point.rotated
  rw [hr, if_pos hcond, hk]

lemma rotated_general_90 (W H x y : ℝ) (hW : 0 ≤ W) (hH : 0 ≤ H) :
    rotated_general 90 W H x y = (y, W - x) := by
  have ha : (90 : ℝ) * Real.pi / 180 = Real.pi / 2 := by ring
  simp only [rotated_general, ha, Real.cos_pi_div_two, Real.sin_pi_div_two]
  simp only [mul_zero, mul_one, zero_mul, one_mul, abs_zero, add_zero, zero_add,
    abs_of_nonneg hW, abs_of_nonneg hH, Prod.mk.injEq]
  constructor <;> ring

lemma rotated_general_180 (W H x y : ℝ) (hW : 0 ≤ W) (hH : 0 ≤ H) :
    rotated_general 180 W H x y = (W - x, H - y) := by
  have ha : (180 : ℝ) * Real.pi / 180 = Real.pi := by ring
  simp only [rotated_general, ha, Real.cos_pi, Real.sin_pi]
  simp only [mul_zero, mul_one, zero_mul, one_mul, mul_neg_one, abs_zero, abs_neg,
    add_zero, zero_add, abs_of_nonneg hW, abs_of_nonneg hH, Prod.mk.injEq]
  constructor <;> ring

lemma cos_pi_add_pi_div_two : Real.cos (Real.pi + Real.pi / 2) = 0 := by
  rw [Real.cos_add, Real.cos_pi, Real.sin_pi, Real.cos_pi_div_two, Real.sin_pi_div_two]
  ring

lemma sin_pi_add_pi_div_two : Real.sin (Real.pi + Real.pi / 2) = -1 := by
  rw [Real.sin_add, Real.cos_pi, Real.sin_pi, Real.cos_pi_div_two, Real.sin_pi_div_two]
  ring

lemma rotated_general_270 (W H x y : ℝ) (hW : 0 ≤ W) (hH : 0 ≤ H) :
    rotated_general 270 W H x y = (H - y, x) := by
  have ha : (270 : ℝ) * Real.pi / 180 = Real.pi + Real.pi / 2 := by ring
  simp only [rotated_general, ha, cos_pi_add_pi_div_two, sin_pi_add_pi_div_two]
  simp only [mul_zero, mul_one, zero_mul, one_mul, mul_neg_one, abs_zero, abs_neg,
    add_zero, zero_add, abs_of_nonneg hW, abs_of_nonneg hH, Prod.mk.injEq]
  constructor <;> ring

lemma floor_90_div_90 : ⌊(90 : ℝ) / 90⌋ = 1 := by
  rw [show (90 : ℝ) / 90 = 1 by norm_num]
  exact Int.floor_one

lemma floor_180_div_90 : ⌊(180 : ℝ) / 90⌋ = 2 := by
  rw [show (180 : ℝ) / 90 = ((2 : ℤ) : ℝ) by norm_num]
  exact Int.floor_intCast _

lemma floor_270_div_90 : ⌊(270 : ℝ) / 90⌋ = 3 := by
  rw [show (270 : ℝ) / 90 = ((3 : ℤ) : ℝ) by norm_num]
  exact Int.floor_intCast _

/-- C7: with empty overrides `get_color` returns the built-in table entry
for every role defined there, and for an undefined role the built-in entry
of the `unknown` sentinel (which is opaque black); given the same override
mapping the answer is always the same. -/
theorem get_color_fallback_chain :
    (∀ name, (COLORS name).isSome = true →
      (empty_palette 1).get_color name = (COLORS name).getD [0, 0, 0]) ∧
    (∀ name, COLORS name = none →
      (empty_palette 1).get_color name = (COLORS SupportedColor.unknown).getD [0, 0, 0]) ∧
    COLORS SupportedColor.unknown = some [0, 0, 0] ∧
    (∀ p q : ColorsPalette, ∀ name, p.overriden_colors = q.overriden_colors →
      p.get_color name = q.get_color name) := by
  refine ⟨by decide, by decide, rfl, ?_⟩
  intro p q name h
  unfold ColorsPalette.get_color
  rw [h]

/-- C7 witness: the defined role `path` resolves to its table entry and the
undefined role `mop_path` resolves to the `unknown` entry, opaque black. -/
theorem get_color_fallback_chain_witness :
    (empty_palette 1).get_color SupportedColor.path = [147, 194, 238] ∧
    (empty_palette 1).get_color SupportedColor.mop_path = [0, 0, 0] := by
  constructor
  · have h := get_color_fallback_chain.1 SupportedColor.path (by decide)
    simpa using h
  · have h := get_color_fallback_chain.2.1 SupportedColor.mop_path rfl
    simpa using h

/-- C4 counterexample: the claim fails for ids below 1.  The code only
wraps ids greater than 16, so id 0 misses the table and takes the random
fallback: with the random draw 1 the result is room 1's color, not room
16's color as `((0 - 1) mod 16) + 1 = 16` would demand. -/
theorem get_room_color_wrap_cex :
    ¬ (∀ rnd : ℤ, 1 ≤ rnd → rnd ≤ 16 → ∀ id : ℤ, (id < 1 ∨ 16 < id) →
      (empty_palette rnd).get_room_color_int id
        = (empty_palette rnd).get_room_color_int ((id - 1) % 16 + 1)) := by
  intro h
  have h0 := h 1 (by decide) (by decide) 0 (Or.inl (by decide))
  revert h0
  decide

/-- C4 amended: for every integer id greater than 16 (the only ids the code
wraps), `get_room_color` agrees with the wrapped id `((id - 1) mod 16) + 1`,
for any override mapping and any random draw; in particular 17 wraps to 1
and 32 wraps to 16, and a numeric-string id behaves like its integer. -/
theorem get_room_color_wrap (p : ColorsPalette) (id : ℤ) (hid : 16 < id) :
    p.get_room_color_int id = p.get_room_color_int ((id - 1) % 16 + 1) ∧
    p.get_room_color_int 17 = p.get_room_color_int 1 ∧
    p.get_room_color_int 32 = p.get_room_color_int 16 ∧
    (∀ s : String, ∀ i : ℤ, s.toInt? = some i →
      p.get_room_color (.str s) = some (p.get_room_color_int i)) := by
  have hlen : (ROOM_COLORS.length : ℤ) = 16 := by rfl
  have main : ∀ j : ℤ, 16 < j →
      p.get_room_color_int j = p.get_room_color_int ((j - 1) % 16 + 1) := by
    intro j hj
    have hmod : 0 ≤ (j - 1) % 16 := Int.emod_nonneg _ (by norm_num)
    have hmodlt : (j - 1) % 16 < 16 := Int.emod_lt_of_pos _ (by norm_num)
    unfold ColorsPalette.get_room_color_int
    rw [hlen, if_pos hj, if_neg (by omega)]
  refine ⟨main id hid, ?_, ?_, ?_⟩
  · have h := main 17 (by norm_num)
    have : ((17 : ℤ) - 1) % 16 + 1 = 1 := by decide
    rwa [this] at h
  · have h := main 32 (by norm_num)
    have : ((32 : ℤ) - 1) % 16 + 1 = 16 := by decide
    rwa [this] at h
  · intro s i hs
    simp [ColorsPalette.get_room_color, hs]

/-- C4 witness: id 20 wraps to 4 with empty overrides. -/
theorem get_room_color_wrap_witness :
    (16 : ℤ) < 20 ∧
    (empty_palette 1).get_room_color_int 20 = (empty_palette 1).get_room_color_int 4 := by
  refine ⟨by norm_num, ?_⟩
  have h := (get_room_color_wrap (empty_palette 1) 20 (by norm_num)).1
  have heq : ((20 : ℤ) - 1) % 16 + 1 = 4 := by decide
  rwa [heq] at h

/-- C2 counterexample: the claim as stated fails when the scaled height is
negative (the dataclass admits it): at rotation 90, width 4, height -1,
scale 1, the fast path sends (0, 0) to (0, 4) while the trigonometric path
sends it to (1, 4); they differ by 1 in x. -/
theorem rotated_fast_matches_trig_cex :
    ¬ (∀ (d : ImageDimensions) (p : Point),
      (d.rotation = 90 ∨ d.rotation = 180 ∨ d.rotation = 270) →
      |(p.rotated d).x - (rotated_general d.rotation
          ((pytrunc ((d.width : ℝ) * d.scale)) : ℝ)
          ((pytrunc ((d.height : ℝ) * d.scale)) : ℝ) p.x p.y).1| ≤ 1 / 1000000 ∧
      |(p.rotated d).y - (rotated_general d.rotation
          ((pytrunc ((d.width : ℝ) * d.scale)) : ℝ)
          ((pytrunc ((d.height : ℝ) * d.scale)) : ℝ) p.x p.y).2| ≤ 1 / 1000000) := by
  intro hcl
  have h := (hcl ⟨0, 0, -1, 4, 1, 90, id⟩ ⟨0, 0, none⟩ (Or.inl rfl)).1
  dsimp only at h
  have hW : ((pytrunc (((4 : ℤ) : ℝ) * (1 : ℝ))) : ℝ) = 4 := by
    rw [mul_one, pytrunc_intCast]
    norm_num
  have hH : ((pytrunc (((-1 : ℤ) : ℝ) * (1 : ℝ))) : ℝ) = -1 := by
    rw [mul_one, pytrunc_intCast]
    norm_num
  have hfast := rotated_fast_case ⟨0, 0, -1, 4, 1, 90, id⟩ ⟨0, 0, none⟩ 1 90 rfl
    (by rw [floor_90_div_90]; norm_num) (by rw [floor_90_div_90]; rfl)
  rw [hfast] at h
  dsimp only [rotate_steps] at h
  rw [hW, hH] at h
  have hgen : rotated_general 90 4 (-1) (0 : ℝ) (0 : ℝ) = (1, 4) := by
    have ha : (90 : ℝ) * Real.pi / 180 = Real.pi / 2 := by ring
    simp only [rotated_general, ha, Real.cos_pi_div_two, Real.sin_pi_div_two]
    norm_num
  rw [hgen] at h
  norm_num at h

/-- C2 amended: with the spec's own precondition that dimensions are
nonnegative (scaled width and height ≥ 0), the fast 90-degree-step path and
the general trigonometric path agree within 1e-6 (they agree exactly) at
rotations 90, 180 and 270. -/
theorem rotated_fast_matches_trig (d : ImageDimensions) (p : Point)
    (hrot : d.rotation = 90 ∨ d.rotation = 180 ∨ d.rotation = 270)
    (hw : 0 ≤ (d.width : ℝ) * d.scale) (hh : 0 ≤ (d.height : ℝ) * d.scale) :
    |(p.rotated d).x - (rotated_general d.rotation
        ((pytrunc ((d.width : ℝ) * d.scale)) : ℝ)
        ((pytrunc ((d.height : ℝ) * d.scale)) : ℝ) p.x p.y).1| ≤ 1 / 1000000 ∧
    |(p.rotated d).y - (rotated_general d.rotation
        ((pytrunc ((d.width : ℝ) * d.scale)) : ℝ)
        ((pytrunc ((d.height : ℝ) * d.scale)) : ℝ) p.x p.y).2| ≤ 1 / 1000000 := by
  have hW0 : (0 : ℝ) ≤ ((pytrunc ((d.width : ℝ) * d.scale)) : ℝ) := pytrunc_cast_nonneg hw
  have hH0 : (0 : ℝ) ≤ ((pytrunc ((d.height : ℝ) * d.scale)) : ℝ) := pytrunc_cast_nonneg hh
  rcases hrot with hr | hr | hr
  · have hfast := rotated_fast_case d p 1 90 hr
      (by rw [floor_90_div_90]; norm_num) (by rw [floor_90_div_90]; rfl)
    rw [hfast, hr, rotated_general_90 _ _ p.x p.y hW0 hH0]
    dsimp only [rotate_steps]
    norm_num
  · have hfast := rotated_fast_case d p 2 180 hr
      (by rw [floor_180_div_90]; norm_num) (by rw [floor_180_div_90]; rfl)
    rw [hfast, hr, rotated_general_180 _ _ p.x p.y hW0 hH0]
    dsimp only [rotate_steps]
    norm_num
  · have hfast := rotated_fast_case d p 3 270 hr
      (by rw [floor_270_div_90]; norm_num) (by rw [floor_270_div_90]; rfl)
    rw [hfast, hr, rotated_general_270 _ _ p.x p.y hW0 hH0]
    dsimp only [rotate_steps]
    constructor
    · norm_num
    · rw [show ((pytrunc ((d.width : ℝ) * d.scale)) : ℝ) -
        (((pytrunc ((d.width : ℝ) * d.scale)) : ℝ) - p.x) = p.x by ring]
      norm_num

/-- C2 witness: a concrete 4x2 image rotated by 90 degrees. -/
theorem rotated_fast_matches_trig_witness :
    |((⟨0, 0, 2, 4, 1, 90, id⟩ : ImageDimensions).rotation : ℝ) - 90| = 0 ∧
    |((⟨3, 1, none⟩ : Point).rotated ⟨0, 0, 2, 4, 1, 90, id⟩).x -
      (rotated_general 90 ((pytrunc (((4 : ℤ) : ℝ) * (1 : ℝ))) : ℝ)
        ((pytrunc (((2 : ℤ) : ℝ) * (1 : ℝ))) : ℝ) 3 1).1| ≤ 1 / 1000000 := by
  constructor
  · norm_num
  · have h := (rotated_fast_matches_trig ⟨0, 0, 2, 4, 1, 90, id⟩ ⟨3, 1, none⟩
      (Or.inl rfl) (by norm_num) (by norm_num)).1
    exact h

lemma calibration_some (m : MapData) (img : ImageData) (hm : m.image = some img)
    (hie : img.is_empty = false) :
    m.calibration = some
      [⟨(m.calibration_center, m.calibration_center),
        (((img.dimensions.to_img ⟨m.calibration_center, m.calibration_center, none⟩).rotated
            img.dimensions).x,
         ((img.dimensions.to_img ⟨m.calibration_center, m.calibration_center, none⟩).rotated
            img.dimensions).y)⟩,
       ⟨(m.calibration_center + m.calibration_diff * 10, m.calibration_center),
        (((img.dimensions.to_img ⟨m.calibration_center + m.calibration_diff * 10,
              m.calibration_center, none⟩).rotated img.dimensions).x,
         ((img.dimensions.to_img ⟨m.calibration_center + m.calibration_diff * 10,
              m.calibration_center, none⟩).rotated img.dimensions).y)⟩,
       ⟨(m.calibration_center, m.calibration_center + m.calibration_diff * 10),
        (((img.dimensions.to_img ⟨m.calibration_center,
              m.calibration_center + m.calibration_diff * 10, none⟩).rotated img.dimensions).x,
         ((img.dimensions.to_img ⟨m.calibration_center,
              m.calibration_center + m.calibration_diff * 10, none⟩).rotated img.dimensions).y)⟩] := by
  unfold MapData.calibration
  rw [hm]
  simp [hie]

/-- C5: `calibration` is `None` exactly when the image is absent or empty;
otherwise it is exactly three vacuum/map pairs with vacuum fields
`(c, c)`, `(c + 10 d, c)`, `(c, c + 10 d)`. -/
theorem calibration_spec (m : MapData) :
    (m.calibration = none ↔
      (m.image = none ∨ ∃ img, m.image = some img ∧ img.is_empty = true)) ∧
    (∀ img, m.image = some img → img.is_empty = false →
      ∃ p1 p2 p3 : ℝ × ℝ, m.calibration = some
        [⟨(m.calibration_center, m.calibration_center), p1⟩,
         ⟨(m.calibration_center + m.calibration_diff * 10, m.calibration_center), p2⟩,
         ⟨(m.calibration_center, m.calibration_center + m.calibration_diff * 10), p3⟩]) := by
  constructor
  · rcases hm : m.image with _ | img
    · simp [MapData.calibration, hm]
    · rcases hie : img.is_empty with _ | _
      · constructor
        · intro h
          rw [calibration_some m img hm hie] at h
          exact Option.noConfusion h
        · rintro (h | ⟨img', h', hie'⟩)
          · exact Option.noConfusion h
          · injection h' with he
            subst he
            rw [hie] at hie'
            cases hie'
      · constructor
        · intro _
          exact Or.inr ⟨img, rfl, hie⟩
        · intro _
          unfold MapData.calibration
          rw [hm]
          simp [hie]
  · intro img hm hie
    exact ⟨_, _, _, calibration_some m img hm hie⟩

/-- C5 witness: center 0 and diff 1 on a concrete non-empty image give the
vacuum anchors (0,0), (10,0), (0,10). -/
theorem calibration_spec_witness :
    ∃ p1 p2 p3 : ℝ × ℝ,
      MapData.calibration
        { calibration_center := 0, calibration_diff := 1,
          image := some ⟨0, ⟨0, 0, 5, 5, 1, 0, id⟩, false, ⟨5, 5, [0, 0, 0], []⟩, []⟩ } =
      some [⟨((0 : ℝ), (0 : ℝ)), p1⟩, ⟨((10 : ℝ), (0 : ℝ)), p2⟩, ⟨((0 : ℝ), (10 : ℝ)), p3⟩] := by
  obtain ⟨p1, p2, p3, h⟩ :=
    (calibration_spec
      { calibration_center := 0, calibration_diff := 1,
        image := some ⟨0, ⟨0, 0, 5, 5, 1, 0, id⟩, false, ⟨5, 5, [0, 0, 0], []⟩, []⟩ }).2
      ⟨0, ⟨0, 0, 5, 5, 1, 0, id⟩, false, ⟨5, 5, [0, 0, 0], []⟩, []⟩ rfl rfl
  refine ⟨p1, p2, p3, ?_⟩
  norm_num at h
  exact h

/-- C10: `is_empty` is computed from the untrimmed height and width, so it
is true exactly when one of them is zero; trim percentages that shrink the
post-trim extent to nothing do not set it, and `calibration` still returns
points for such an image. -/
theorem image_data_is_empty_untrimmed (size top left height width : ℤ)
    (cfg : ImageConfig) (data : PILImage) (tr : Point → Point)
    (layers : List (String × Option PILImage)) (c d : ℝ) :
    ((mk_image_data size top left height width cfg data tr layers).is_empty = true
      ↔ (height = 0 ∨ width = 0)) ∧
    (height ≠ 0 → width ≠ 0 →
      (MapData.calibration
        { calibration_center := c, calibration_diff := d,
          image := some (mk_image_data size top left height width cfg data tr layers) }).isSome
        = true) := by
  constructor
  · simp [mk_image_data]
  · intro hh hw
    have hie : (mk_image_data size top left height width cfg data tr layers).is_empty
        = false := by
      simp [mk_image_data, hh, hw]
    rw [calibration_some
      { calibration_center := c, calibration_diff := d,
        image := some (mk_image_data size top left height width cfg data tr layers) }
      (mk_image_data size top left height width cfg data tr layers) rfl hie]
    rfl

/-- C10 witness: a 10x10 image trimmed 50 percent from the left and the
right has post-trim width 0, is still not empty, and still yields
calibration points; an image built with height 0 and width 0 (as
`ImageData.create_empty` does) is empty. -/
theorem image_data_is_empty_untrimmed_witness :
    (mk_image_data 0 0 0 10 10 ⟨1, 0, ⟨50, 50, 0, 0⟩⟩ ⟨10, 10, [0, 0, 0], []⟩ id []).dimensions.width = 0 ∧
    (mk_image_data 0 0 0 10 10 ⟨1, 0, ⟨50, 50, 0, 0⟩⟩ ⟨10, 10, [0, 0, 0], []⟩ id []).is_empty = false ∧
    (mk_image_data 0 0 0 0 0 {} ⟨0, 0, [0, 0, 0], []⟩ id []).is_empty = true ∧
    (MapData.calibration
      { calibration_center := 0, calibration_diff := 1,
        image := some (mk_image_data 0 0 0 10 10 ⟨1, 0, ⟨50, 50, 0, 0⟩⟩
          ⟨10, 10, [0, 0, 0], []⟩ id []) }).isSome = true := by
  have h := image_data_is_empty_untrimmed 0 0 0 10 10 ⟨1, 0, ⟨50, 50, 0, 0⟩⟩
    ⟨10, 10, [0, 0, 0], []⟩ id [] 0 1
  have h0 := image_data_is_empty_untrimmed 0 0 0 0 0 {} ⟨0, 0, [0, 0, 0], []⟩ id [] 0 1
  refine ⟨?_, ?_, h0.1.mpr (Or.inl rfl), h.2 (by norm_num) (by norm_num)⟩
  · have htrim : pytrunc ((50 : ℝ) * 10 / 100) = 5 := by
      rw [show (50 : ℝ) * 10 / 100 = ((5 : ℤ) : ℝ) by norm_num]
      exact pytrunc_intCast 5
    simp [mk_image_data, htrim]
  · cases hb : (mk_image_data 0 0 0 10 10 ⟨1, 0, ⟨50, 50, 0, 0⟩⟩
        ⟨10, 10, [0, 0, 0], []⟩ id []).is_empty
    · rfl
    · exact absurd (h.1.mp hb) (by norm_num)

/-- C8: the empty-map placeholder is always 300x200 on the outside-map
palette color, with one centered caption whose color is black exactly when
the background's RGB channel sum exceeds 382 and white otherwise. -/
theorem create_empty_map_image_spec (g : ImageGenerator) (text : String) :
    (g.create_empty_map_image text).width = 300 ∧
    (g.create_empty_map_image text).height = 200 ∧
    (g.create_empty_map_image text).background = g.get_color .map_outside ∧
    (g.create_empty_map_image text).ops =
      [DrawOp.text
        ((300 - ((g.textbbox none text).2.2.1 - (g.textbbox none text).1)) / 2)
        ((200 - ((g.textbbox none text).2.2.2 - (g.textbbox none text).2.1)) / 2)
        text none
        (if 382 < ((g.get_color .map_outside).take 3).sum then [0, 0, 0]
         else [255, 255, 255])] :=
  ⟨rfl, rfl, rfl, rfl⟩

/-- C6: a missing image makes the whole render a no-op, and every element
renderer is a no-op when its map-model field is absent; an empty area
list, an empty obstacle list and an empty polyline list likewise change
nothing. -/
theorem draw_map_missing_noop (g : ImageGenerator) (m : MapData)
    (img : ImageData) (fill outline color : Color) (r pw : ℝ) (p : Path) :
    (m.image = none → g.draw_map m = m) ∧
    (m.charger = none → g.draw_charger m = m) ∧
    (m.vacuum_position = none → g.draw_vacuum_position m = m) ∧
    (m.obstacles = none → g.draw_obstacles m = m) ∧
    (m.ignored_obstacles = none → g.draw_ignored_obstacles m = m) ∧
    (m.obstacles_with_photo = none → g.draw_obstacles_with_photo m = m) ∧
    (m.ignored_obstacles_with_photo = none → g.draw_ignored_obstacles_with_photo m = m) ∧
    (m.path = none → g.draw_vacuum_path m = m) ∧
    (m.goto_path = none → g.draw_goto_path m = m) ∧
    (m.predicted_path = none → g.draw_predicted_path m = m) ∧
    (m.mop_path = none → g.draw_mop_path m = m) ∧
    (m.no_go_areas = none → g.draw_no_go_areas m = m) ∧
    (m.no_mopping_areas = none → g.draw_no_mopping_areas m = m) ∧
    (m.no_carpet_areas = none → g.draw_no_carpet_areas m = m) ∧
    (m.walls = none → g.draw_walls_r m = m) ∧
    (m.zones = none → g.draw_zones m = m) ∧
    (m.rooms = none → g.draw_room_names m = m) ∧
    draw_areas img [] fill outline = img ∧
    draw_all_obstacles img [] r color = img ∧
    (p.path = [] → draw_path_img g img p pw color = img) := by
  refine ⟨fun h => by simp [ImageGenerator.draw_map, h],
    fun h => by simp [ImageGenerator.draw_charger, h],
    fun h => by simp [ImageGenerator.draw_vacuum_position, h],
    fun h => by simp [ImageGenerator.draw_obstacles, h],
    fun h => by simp [ImageGenerator.draw_ignored_obstacles, h],
    fun h => by simp [ImageGenerator.draw_obstacles_with_photo, h],
    fun h => by simp [ImageGenerator.draw_ignored_obstacles_with_photo, h],
    fun h => by simp [ImageGenerator.draw_vacuum_path, h],
    fun h => by simp [ImageGenerator.draw_goto_path, h],
    fun h => by simp [ImageGenerator.draw_predicted_path, h],
    fun h => by simp [ImageGenerator.draw_mop_path, h],
    fun h => by simp [ImageGenerator.draw_no_go_areas, h],
    fun h => by simp [ImageGenerator.draw_no_mopping_areas, h],
    fun h => by simp [ImageGenerator.draw_no_carpet_areas, h],
    fun h => by simp [ImageGenerator.draw_walls_r, h],
    fun h => by simp [ImageGenerator.draw_zones, h],
    fun h => by simp [ImageGenerator.draw_room_names, h],
    rfl, rfl,
    fun h => by simp [draw_path_img, h]⟩

/-- C6 witness: a generator on an image-less map leaves it untouched, and
an empty area list draws nothing. -/
theorem draw_map_missing_noop_witness :
    ImageGenerator.draw_map
      ⟨empty_palette 1, ⟨fun _ => none⟩, [], {}, [], fun _ _ => (0, 0, 0, 0),
        fun _ _ => none⟩ {} = ({} : MapData) ∧
    draw_areas ⟨0, ⟨0, 0, 5, 5, 1, 0, id⟩, false, ⟨5, 5, [0, 0, 0], []⟩, []⟩ [] [0, 0, 0] [0, 0, 0]
      = ⟨0, ⟨0, 0, 5, 5, 1, 0, id⟩, false, ⟨5, 5, [0, 0, 0], []⟩, []⟩ := by
  obtain ⟨h1, h2, h3, h4, h5, h6, h7, h8, h9, h10, h11, h12, h13, h14, h15, h16, h17,
    h18, h19, h20⟩ :=
    draw_map_missing_noop
      ⟨empty_palette 1, ⟨fun _ => none⟩, [], {}, [], fun _ _ => (0, 0, 0, 0),
        fun _ _ => none⟩ {}
      ⟨0, ⟨0, 0, 5, 5, 1, 0, id⟩, false, ⟨5, 5, [0, 0, 0], []⟩, []⟩
      [0, 0, 0] [0, 0, 0] [0, 0, 0] 1 1 ⟨none, none, none, []⟩
  exact ⟨h1 rfl, h18⟩

lemma count_line_ops_append (a b : List DrawOp) :
    count_line_ops (a ++ b) = count_line_ops a + count_line_ops b := by
  simp [count_line_ops, List.filter_append]

lemma count_cap_ops_append (a b : List DrawOp) :
    count_cap_ops (a ++ b) = count_cap_ops a + count_cap_ops b := by
  simp [count_cap_ops, List.filter_append]

lemma seg_line_count (dims : ImageDimensions) (scale pw : ℝ) (color : Color) :
    ∀ (l : List Point) (s : Point) (first : Bool),
      count_line_ops (path_segment_ops dims scale pw color s first l) = l.length := by
  intro l
  induction l with
  | nil => intro s first; rfl
  | cons q rest ih =>
    intro s first
    by_cases hpw : 4 < pw <;> cases first <;>
      simp [path_segment_ops, hpw, count_line_ops, List.filter_append, List.filter, ih,
        ← count_line_ops_append]
    all_goals
      rw [show (path_segment_ops dims scale pw color ((dims.to_img q).mul scale) false rest
        = path_segment_ops dims scale pw color ((dims.to_img q).mul scale) false rest) from rfl]
    all_goals
      have h := ih ((dims.to_img q).mul scale) false
    all_goals
      simp [count_line_ops] at h
    all_goals omega

lemma seg_cap_count_le (dims : ImageDimensions) (scale pw : ℝ) (color : Color)
    (hpw : ¬ 4 < pw) :
    ∀ (l : List Point) (s : Point) (first : Bool),
      count_cap_ops (path_segment_ops dims scale pw color s first l) = 0 := by
  intro l
  induction l with
  | nil => intro s first; rfl
  | cons q rest ih =>
    intro s first
    simp only [path_segment_ops]
    rw [count_cap_ops_append, count_cap_ops_append]
    rw [if_neg hpw]
    rw [ih]
    rfl

lemma seg_cap_count_gt_false (dims : ImageDimensions) (scale pw : ℝ) (color : Color)
    (hpw : 4 < pw) :
    ∀ (l : List Point) (s : Point),
      count_cap_ops (path_segment_ops dims scale pw color s false l) = l.length := by
  intro l
  induction l with
  | nil => intro s; rfl
  | cons q rest ih =>
    intro s
    simp only [path_segment_ops]
    rw [count_cap_ops_append, count_cap_ops_append, ih, if_pos hpw]
    simp [count_cap_ops, List.filter]
    omega

lemma seg_cap_count_gt_true (dims : ImageDimensions) (scale pw : ℝ) (color : Color)
    (hpw : 4 < pw) (l : List Point) (hne : l ≠ []) (s : Point) :
    count_cap_ops (path_segment_ops dims scale pw color s true l) = l.length + 1 := by
  match l with
  | q :: rest =>
    simp only [path_segment_ops]
    rw [count_cap_ops_append, count_cap_ops_append,
      seg_cap_count_gt_false dims scale pw color hpw, if_pos hpw]
    simp [count_cap_ops, List.filter]
    omega

lemma seg_ops_shape (dims : ImageDimensions) (scale pw : ℝ) (color : Color) :
    ∀ (l : List Point) (s : Point) (first : Bool) (op : DrawOp),
      op ∈ path_segment_ops dims scale pw color s first l →
      (∃ coords, op = DrawOp.line coords color (pytrunc (scale * pw))) ∨
      (4 < pw ∧ ∃ cx cy, op = DrawOp.pieslice
        (cx - scale * pw / 2, cy - scale * pw / 2)
        (cx + scale * pw / 2, cy + scale * pw / 2) 0 360 (some color) (some color)) := by
  intro l
  induction l with
  | nil => intro s first op hop; simp [path_segment_ops] at hop
  | cons q rest ih =>
    intro s first op hop
    simp only [path_segment_ops] at hop
    rcases List.mem_append.mp hop with h1 | h2
    · rcases List.mem_append.mp h1 with hseg | hcap
      · left
        simp at hseg
        exact ⟨_, hseg⟩
      · right
        split at hcap
        · refine ⟨by assumption, ?_⟩
          rcases List.mem_append.mp hcap with hc | hc
          · split at hc
            · simp at hc
              exact ⟨s.x, s.y, hc⟩
            · simp at hc
          · simp at hc
            exact ⟨((dims.to_img q).mul scale).x, ((dims.to_img q).mul scale).y, hc⟩
        · simp at hcap
    · exact ih _ false op h2

/-- C9: the path renderer issues nothing for an empty or single-point
polyline; a polyline of n points yields exactly n - 1 straight segments,
every segment drawn with pixel width `int(scale * width)` in the path
color; full-circle end caps of radius `scale * width / 2` appear exactly
when the configured width exceeds 4, one per vertex; and an empty path is
a complete no-op. -/
theorem draw_path_spec (dims : ImageDimensions) (scale pw : ℝ) (color : Color) :
    (polyline_ops dims scale pw color [] = [] ∧
      ∀ q : Point, polyline_ops dims scale pw color [q] = []) ∧
    (∀ pl : List Point,
      count_line_ops (polyline_ops dims scale pw color pl) = pl.length - 1) ∧
    (∀ pl : List Point, ¬ 4 < pw →
      count_cap_ops (polyline_ops dims scale pw color pl) = 0) ∧
    (∀ pl : List Point, 4 < pw → 2 ≤ pl.length →
      count_cap_ops (polyline_ops dims scale pw color pl) = pl.length) ∧
    (∀ (pl : List Point) (op : DrawOp), op ∈ polyline_ops dims scale pw color pl →
      (∃ coords, op = DrawOp.line coords color (pytrunc (scale * pw))) ∨
      (4 < pw ∧ ∃ cx cy, op = DrawOp.pieslice
        (cx - scale * pw / 2, cy - scale * pw / 2)
        (cx + scale * pw / 2, cy + scale * pw / 2) 0 360 (some color) (some color))) ∧
    (∀ (g : ImageGenerator) (img : ImageData) (p : Path), p.path = [] →
      draw_path_img g img p pw color = img) := by
  refine ⟨⟨rfl, fun q => rfl⟩, ?_, ?_, ?_, ?_, ?_⟩
  · intro pl
    match pl with
    | [] => rfl
    | [q] => rfl
    | p :: q :: rest =>
      simp only [polyline_ops]
      rw [seg_line_count]
      simp
  · intro pl hpw
    match pl with
    | [] => rfl
    | [q] => rfl
    | p :: q :: rest =>
      simp only [polyline_ops]
      rw [seg_cap_count_le dims scale pw color hpw]
  · intro pl hpw hlen
    match pl with
    | p :: q :: rest =>
      simp only [polyline_ops]
      rw [seg_cap_count_gt_true dims scale pw color hpw (q :: rest) (by simp)]
      simp
  · intro pl op hop
    match pl with
    | [] => simp [polyline_ops] at hop
    | [q] => simp [polyline_ops] at hop
    | p :: q :: rest =>
      simp only [polyline_ops] at hop
      exact seg_ops_shape dims scale pw color _ _ _ op hop
  · intro g img p h
    simp [draw_path_img, h]

/-- C9 witness: with width 5 a two-point polyline gives one segment and two
caps; a single-point polyline gives nothing. -/
theorem draw_path_spec_witness :
    count_line_ops (polyline_ops ⟨0, 0, 5, 5, 1, 0, id⟩ 1 5 [0, 0, 0]
      [⟨0, 0, none⟩, ⟨1, 0, none⟩]) = 1 ∧
    count_cap_ops (polyline_ops ⟨0, 0, 5, 5, 1, 0, id⟩ 1 5 [0, 0, 0]
      [⟨0, 0, none⟩, ⟨1, 0, none⟩]) = 2 ∧
    polyline_ops ⟨0, 0, 5, 5, 1, 0, id⟩ 1 5 [0, 0, 0] [⟨0, 0, none⟩] = [] := by
  obtain ⟨⟨-, hsingle⟩, hline, -, hcap, -, -⟩ :=
    draw_path_spec ⟨0, 0, 5, 5, 1, 0, id⟩ 1 5 [0, 0, 0]
  refine ⟨?_, ?_, hsingle _⟩
  · rw [hline]
    rfl
  · rw [hcap _ (by norm_num) (by norm_num)]
    rfl

lemma data_only_refl (i : ImageData) : data_only i i := ⟨rfl, rfl, rfl, rfl⟩

lemma data_only_trans {i j k : ImageData} (h1 : data_only i j) (h2 : data_only j k) :
    data_only i k :=
  ⟨h2.1.trans h1.1, h2.2.1.trans h1.2.1, h2.2.2.1.trans h1.2.2.1, h2.2.2.2.trans h1.2.2.2⟩

lemma data_only_foldl {α : Type} (step : ImageData → α → ImageData)
    (hstep : ∀ i x, data_only i (step i x)) :
    ∀ (l : List α) (i : ImageData), data_only i (l.foldl step i) := by
  intro l
  induction l with
  | nil => intro i; exact data_only_refl i
  | cons x xs ih => intro i; exact data_only_trans (hstep i x) (ih (step i x))

lemma data_only_draw_areas (img : ImageData) (ars : List Area) (f o : Color) :
    data_only img (draw_areas img ars f o) := by
  cases ars with
  | nil => exact data_only_refl img
  | cons a as => exact ⟨rfl, rfl, rfl, rfl⟩

lemma data_only_draw_path (g : ImageGenerator) (img : ImageData) (p : Path)
    (pw : ℝ) (c : Color) : data_only img (draw_path_img g img p pw c) := by
  unfold draw_path_img
  rcases p.path with _ | ⟨pl, pls⟩
  · exact data_only_refl img
  · exact ⟨rfl, rfl, rfl, rfl⟩

lemma data_only_draw_all_obstacles (img : ImageData) (obs : List Obstacle)
    (r : ℝ) (c : Color) : data_only img (draw_all_obstacles img obs r c) := by
  unfold draw_all_obstacles
  refine data_only_foldl _ ?_ obs img
  intro i ob
  exact ⟨rfl, rfl, rfl, rfl⟩

lemma data_only_rotate (g : ImageGenerator) (img : ImageData) :
    data_only img (rotate_image g img) := by
  unfold rotate_image
  split
  · exact ⟨rfl, rfl, rfl, rfl⟩
  · split
    · exact ⟨rfl, rfl, rfl, rfl⟩
    · split
      · exact ⟨rfl, rfl, rfl, rfl⟩
      · exact ⟨rfl, rfl, rfl, rfl⟩

lemma data_only_draw_texts (g : ImageGenerator) (img : ImageData) :
    data_only img (draw_texts g img) := by
  unfold draw_texts
  refine data_only_foldl _ ?_ g.texts img
  intro i t
  exact ⟨rfl, rfl, rfl, rfl⟩

lemma image_frame_refl (o : Option ImageData) : image_frame o o := by
  cases o with
  | none => trivial
  | some i => exact ⟨rfl, rfl, rfl, rfl⟩

lemma image_frame_trans : ∀ {a b c : Option ImageData},
    image_frame a b → image_frame b c → image_frame a c
  | none, none, none, _, _ => trivial
  | some _, some _, some _, h1, h2 =>
    ⟨h2.1.trans h1.1, h2.2.1.trans h1.2.1, h2.2.2.1.trans h1.2.2.1, h2.2.2.2.trans h1.2.2.2⟩
  | none, some _, _, h1, _ => h1.elim
  | some _, none, _, h1, _ => h1.elim
  | none, none, some _, _, h2 => h2.elim
  | some _, some _, none, _, h2 => h2.elim

lemma vac_frame_trans {a b c : Option Point} (h1 : vac_frame a b) (h2 : vac_frame b c) :
    vac_frame a c := by
  rcases h1 with h1 | ⟨p, hap, hpa, hbp⟩
  · rcases h2 with h2 | ⟨q, hbq, hqa, hcq⟩
    · exact Or.inl (h2.trans h1)
    · subst h1
      exact Or.inr ⟨q, hbq, hqa, hcq⟩
  · rcases h2 with h2 | ⟨q, hbq, hqa, hcq⟩
    · exact Or.inr ⟨p, hap, hpa, h2.trans hbp⟩
    · rw [hbp] at hbq
      injection hbq with he
      exfalso
      rw [← he] at hqa
      exact Option.noConfusion hqa

lemma map_frame_refl (m : MapData) : map_frame m m :=
  ⟨rfl, rfl, rfl, rfl, rfl, rfl, rfl, rfl, rfl, rfl, rfl, rfl, rfl, rfl, rfl, rfl, rfl, rfl,
   rfl, rfl, rfl, rfl, rfl, rfl, image_frame_refl m.image, Or.inl rfl⟩

lemma map_frame_trans {a b c : MapData} (h1 : map_frame a b) (h2 : map_frame b c) :
    map_frame a c := by
  obtain ⟨a1, a2, a3, a4, a5, a6, a7, a8, a9, a10, a11, a12, a13, a14, a15, a16, a17, a18,
    a19, a20, a21, a22, a23, a24, aimg, avac⟩ := h1
  obtain ⟨b1, b2, b3, b4, b5, b6, b7, b8, b9, b10, b11, b12, b13, b14, b15, b16, b17, b18,
    b19, b20, b21, b22, b23, b24, bimg, bvac⟩ := h2
  exact ⟨b1.trans a1, b2.trans a2, b3.trans a3, b4.trans a4, b5.trans a5, b6.trans a6,
    b7.trans a7, b8.trans a8, b9.trans a9, b10.trans a10, b11.trans a11, b12.trans a12,
    b13.trans a13, b14.trans a14, b15.trans a15, b16.trans a16, b17.trans a17,
    b18.trans a18, b19.trans a19, b20.trans a20, b21.trans a21, b22.trans a22,
    b23.trans a23, b24.trans a24, image_frame_trans aimg bimg, vac_frame_trans avac bvac⟩

lemma map_frame_set_image (m : MapData) (img j : ImageData) (hm : m.image = some img)
    (hj : data_only img j) : map_frame m { m with image := some j } := by
  refine ⟨rfl, rfl, rfl, rfl, rfl, rfl, rfl, rfl, rfl, rfl, rfl, rfl, rfl, rfl, rfl, rfl,
    rfl, rfl, rfl, rfl, rfl, rfl, rfl, rfl, ?_, Or.inl rfl⟩
  show image_frame m.image (some j)
  rw [hm]
  exact hj

lemma frame_draw_charger (g : ImageGenerator) (m : MapData) :
    map_frame m (g.draw_charger m) := by
  unfold ImageGenerator.draw_charger
  rcases hc : m.charger with _ | ch
  · rcases hi : m.image with _ | img <;> exact map_frame_refl m
  · rcases hi : m.image with _ | img
    · exact map_frame_refl m
    · refine ⟨rfl, rfl, rfl, hc.symm, rfl, rfl, rfl, rfl, rfl, rfl, rfl, rfl, rfl, rfl,
        rfl, rfl, rfl, rfl, rfl, rfl, rfl, rfl, rfl, rfl, ?_, Or.inl rfl⟩
      rw [hi]
      exact ⟨rfl, rfl, rfl, rfl⟩

lemma frame_draw_vacuum_position (g : ImageGenerator) (m : MapData) :
    map_frame m (g.draw_vacuum_position m) := by
  unfold ImageGenerator.draw_vacuum_position
  rcases hv : m.vacuum_position with _ | vp
  · rcases hi : m.image with _ | img <;> exact map_frame_refl m
  · rcases hi : m.image with _ | img
    · exact map_frame_refl m
    · refine ⟨rfl, rfl, rfl, rfl, rfl, rfl, rfl, rfl, rfl, rfl, rfl, rfl, rfl, rfl, rfl,
        rfl, rfl, rfl, rfl, rfl, rfl, rfl, rfl, rfl, ?_, ?_⟩
      · rw [hi]
        exact ⟨rfl, rfl, rfl, rfl⟩
      · rw [hv]
        obtain ⟨vx, vy, va⟩ := vp
        rcases va with _ | x
        · exact Or.inr ⟨⟨vx, vy, none⟩, rfl, rfl, rfl⟩
        · exact Or.inl rfl

lemma frame_draw_obstacles (g : ImageGenerator) (m : MapData) :
    map_frame m (g.draw_obstacles m) := by
  unfold ImageGenerator.draw_obstacles
  rcases ho : m.obstacles with _ | obs
  · rcases hi : m.image with _ | img <;> exact map_frame_refl m
  · rcases hi : m.image with _ | img
    · exact map_frame_refl m
    · refine ⟨rfl, rfl, rfl, rfl, rfl, rfl, rfl, rfl, rfl, rfl, ho.symm, rfl, rfl, rfl,
        rfl, rfl, rfl, rfl, rfl, rfl, rfl, rfl, rfl, rfl, ?_, Or.inl rfl⟩
      rw [hi]
      exact data_only_draw_all_obstacles img obs _ _

lemma frame_draw_ignored_obstacles (g : ImageGenerator) (m : MapData) :
    map_frame m (g.draw_ignored_obstacles m) := by
  unfold ImageGenerator.draw_ignored_obstacles
  rcases ho : m.ignored_obstacles with _ | obs
  · rcases hi : m.image with _ | img <;> exact map_frame_refl m
  · rcases hi : m.image with _ | img
    · exact map_frame_refl m
    · refine ⟨rfl, rfl, rfl, rfl, rfl, rfl, rfl, rfl, rfl, rfl, rfl, ho.symm, rfl, rfl,
        rfl, rfl, rfl, rfl, rfl, rfl, rfl, rfl, rfl, rfl, ?_, Or.inl rfl⟩
      rw [hi]
      exact data_only_draw_all_obstacles img obs _ _

lemma frame_draw_obstacles_with_photo (g : ImageGenerator) (m : MapData) :
    map_frame m (g.draw_obstacles_with_photo m) := by
  unfold ImageGenerator.draw_obstacles_with_photo
  rcases ho : m.obstacles_with_photo with _ | obs
  · rcases hi : m.image with _ | img <;> exact map_frame_refl m
  · rcases hi : m.image with _ | img
    · exact map_frame_refl m
    · refine ⟨rfl, rfl, rfl, rfl, rfl, rfl, rfl, rfl, rfl, rfl, rfl, rfl, ho.symm, rfl,
        rfl, rfl, rfl, rfl, rfl, rfl, rfl, rfl, rfl, rfl, ?_, Or.inl rfl⟩
      rw [hi]
      exact data_only_draw_all_obstacles img obs _ _

lemma frame_draw_ignored_obstacles_with_photo (g : ImageGenerator) (m : MapData) :
    map_frame m (g.draw_ignored_obstacles_with_photo m) := by
  unfold ImageGenerator.draw_ignored_obstacles_with_photo
  rcases ho : m.ignored_obstacles_with_photo with _ | obs
  · rcases hi : m.image with _ | img <;> exact map_frame_refl m
  · rcases hi : m.image with _ | img
    · exact map_frame_refl m
    · refine ⟨rfl, rfl, rfl, rfl, rfl, rfl, rfl, rfl, rfl, rfl, rfl, rfl, rfl, ho.symm,
        rfl, rfl, rfl, rfl, rfl, rfl, rfl, rfl, rfl, rfl, ?_, Or.inl rfl⟩
      rw [hi]
      exact data_only_draw_all_obstacles img obs _ _

lemma frame_draw_vacuum_path (g : ImageGenerator) (m : MapData) :
    map_frame m (g.draw_vacuum_path m) := by
  unfold ImageGenerator.draw_vacuum_path
  rcases hp : m.path with _ | p
  · rcases hi : m.image with _ | img <;> exact map_frame_refl m
  · rcases hi : m.image with _ | img
    · exact map_frame_refl m
    · refine ⟨rfl, rfl, rfl, rfl, rfl, rfl, rfl, rfl, rfl, rfl, rfl, rfl, rfl, rfl,
        hp.symm, rfl, rfl, rfl, rfl, rfl, rfl, rfl, rfl, rfl, ?_, Or.inl rfl⟩
      rw [hi]
      exact data_only_draw_path g img p _ _

lemma frame_draw_goto_path (g : ImageGenerator) (m : MapData) :
    map_frame m (g.draw_goto_path m) := by
  unfold ImageGenerator.draw_goto_path
  rcases hp : m.goto_path with _ | p
  · rcases hi : m.image with _ | img <;> exact map_frame_refl m
  · rcases hi : m.image with _ | img
    · exact map_frame_refl m
    · refine ⟨rfl, rfl, rfl, rfl, rfl, hp.symm, rfl, rfl, rfl, rfl, rfl, rfl, rfl, rfl,
        rfl, rfl, rfl, rfl, rfl, rfl, rfl, rfl, rfl, rfl, ?_, Or.inl rfl⟩
      rw [hi]
      exact data_only_draw_path g img p _ _

lemma frame_draw_predicted_path (g : ImageGenerator) (m : MapData) :
    map_frame m (g.draw_predicted_path m) := by
  unfold ImageGenerator.draw_predicted_path
  rcases hp : m.predicted_path with _ | p
  · rcases hi : m.image with _ | img <;> exact map_frame_refl m
  · rcases hi : m.image with _ | img
    · exact map_frame_refl m
    · refine ⟨rfl, rfl, rfl, rfl, rfl, rfl, rfl, rfl, rfl, rfl, rfl, rfl, rfl, rfl, rfl,
        hp.symm, rfl, rfl, rfl, rfl, rfl, rfl, rfl, rfl, ?_, Or.inl rfl⟩
      rw [hi]
      exact data_only_draw_path g img p _ _

lemma frame_draw_mop_path (g : ImageGenerator) (m : MapData) :
    map_frame m (g.draw_mop_path m) := by
  unfold ImageGenerator.draw_mop_path
  rcases hp : m.mop_path with _ | p
  · rcases hi : m.image with _ | img <;> exact map_frame_refl m
  · rcases hi : m.image with _ | img
    · exact map_frame_refl m
    · refine ⟨rfl, rfl, rfl, rfl, rfl, rfl, rfl, rfl, rfl, rfl, rfl, rfl, rfl, rfl, rfl,
        rfl, hp.symm, rfl, rfl, rfl, rfl, rfl, rfl, rfl, ?_, Or.inl rfl⟩
      rw [hi]
      exact data_only_draw_path g img p _ _

lemma frame_draw_no_carpet_areas (g : ImageGenerator) (m : MapData) :
    map_frame m (g.draw_no_carpet_areas m) := by
  unfold ImageGenerator.draw_no_carpet_areas
  rcases ha : m.no_carpet_areas with _ | ars
  · rcases hi : m.image with _ | img <;> exact map_frame_refl m
  · rcases hi : m.image with _ | img
    · exact map_frame_refl m
    · refine ⟨rfl, rfl, rfl, rfl, rfl, rfl, rfl, rfl, ha.symm, rfl, rfl, rfl, rfl, rfl,
        rfl, rfl, rfl, rfl, rfl, rfl, rfl, rfl, rfl, rfl, ?_, Or.inl rfl⟩
      rw [hi]
      exact data_only_draw_areas img ars _ _

lemma frame_draw_no_go_areas (g : ImageGenerator) (m : MapData) :
    map_frame m (g.draw_no_go_areas m) := by
  unfold ImageGenerator.draw_no_go_areas
  rcases ha : m.no_go_areas with _ | ars
  · rcases hi : m.image with _ | img <;> exact map_frame_refl m
  · rcases hi : m.image with _ | img
    · exact map_frame_refl m
    · refine ⟨rfl, rfl, rfl, rfl, rfl, rfl, ha.symm, rfl, rfl, rfl, rfl, rfl, rfl, rfl,
        rfl, rfl, rfl, rfl, rfl, rfl, rfl, rfl, rfl, rfl, ?_, Or.inl rfl⟩
      rw [hi]
      exact data_only_draw_areas img ars _ _

lemma frame_draw_no_mopping_areas (g : ImageGenerator) (m : MapData) :
    map_frame m (g.draw_no_mopping_areas m) := by
  unfold ImageGenerator.draw_no_mopping_areas
  rcases ha : m.no_mopping_areas with _ | ars
  · rcases hi : m.image with _ | img <;> exact map_frame_refl m
  · rcases hi : m.image with _ | img
    · exact map_frame_refl m
    · refine ⟨rfl, rfl, rfl, rfl, rfl, rfl, rfl, ha.symm, rfl, rfl, rfl, rfl, rfl, rfl,
        rfl, rfl, rfl, rfl, rfl, rfl, rfl, rfl, rfl, rfl, ?_, Or.inl rfl⟩
      rw [hi]
      exact data_only_draw_areas img ars _ _

lemma frame_draw_walls_r (g : ImageGenerator) (m : MapData) :
    map_frame m (g.draw_walls_r m) := by
  unfold ImageGenerator.draw_walls_r
  rcases hw : m.walls with _ | ws
  · rcases hi : m.image with _ | img <;> exact map_frame_refl m
  · rcases hi : m.image with _ | img
    · exact map_frame_refl m
    · refine ⟨rfl, rfl, rfl, rfl, rfl, rfl, rfl, rfl, rfl, rfl, rfl, rfl, rfl, rfl, rfl,
        rfl, rfl, rfl, rfl, rfl, hw.symm, rfl, rfl, rfl, ?_, Or.inl rfl⟩
      rw [hi]
      exact ⟨rfl, rfl, rfl, rfl⟩

lemma frame_draw_zones (g : ImageGenerator) (m : MapData) :
    map_frame m (g.draw_zones m) := by
  unfold ImageGenerator.draw_zones
  rcases hz : m.zones with _ | zs
  · rcases hi : m.image with _ | img <;> exact map_frame_refl m
  · rcases hi : m.image with _ | img
    · exact map_frame_refl m
    · refine ⟨rfl, rfl, rfl, rfl, rfl, rfl, rfl, rfl, rfl, rfl, rfl, rfl, rfl, rfl, rfl,
        rfl, rfl, rfl, rfl, rfl, rfl, hz.symm, rfl, rfl, ?_, Or.inl rfl⟩
      rw [hi]
      exact data_only_draw_areas img (zs.map Zone.as_area) _ _

lemma frame_draw_room_names (g : ImageGenerator) (m : MapData) :
    map_frame m (g.draw_room_names m) := by
  unfold ImageGenerator.draw_room_names
  rcases hr : m.rooms with _ | rooms
  · rcases hi : m.image with _ | img <;> exact map_frame_refl m
  · rcases hi : m.image with _ | img
    · exact map_frame_refl m
    · refine ⟨rfl, rfl, rfl, rfl, rfl, rfl, rfl, rfl, rfl, rfl, rfl, rfl, rfl, rfl, rfl,
        rfl, rfl, hr.symm, rfl, rfl, rfl, rfl, rfl, rfl, ?_, Or.inl rfl⟩
      rw [hi]
      refine data_only_foldl _ ?_ rooms img
      intro i nr
      rcases hp : nr.2.point with _ | p
      · exact data_only_refl i
      · rcases hn : nr.2.name with _ | nm
        · exact data_only_refl i
        · exact ⟨rfl, rfl, rfl, rfl⟩

lemma frame_draw_layer_r (g : ImageGenerator) (m : MapData) (name : String) :
    map_frame m (g.draw_layer_r m name) := by
  unfold ImageGenerator.draw_layer_r
  rcases hi : m.image with _ | img
  · exact map_frame_refl m
  · show map_frame m (match img.additional_layers.lookup name with
      | some layer => { m with image := some (draw_layer_with_alpha img layer) }
      | none => m)
    rcases hl : img.additional_layers.lookup name with _ | layer
    · exact map_frame_refl m
    · refine ⟨rfl, rfl, rfl, rfl, rfl, rfl, rfl, rfl, rfl, rfl, rfl, rfl, rfl, rfl, rfl,
        rfl, rfl, rfl, rfl, rfl, rfl, rfl, rfl, rfl, ?_, Or.inl rfl⟩
      rw [hi]
      exact ⟨rfl, rfl, rfl, rfl⟩

lemma frame_dispatch (g : ImageGenerator) (m : MapData) (d : Drawable) :
    map_frame m (g.dispatch m d) := by
  cases d
  case charger => exact frame_draw_charger g m
  case cleaned_area => exact frame_draw_layer_r g m _
  case goto_path => exact frame_draw_goto_path g m
  case ignored_obstacles => exact frame_draw_ignored_obstacles g m
  case ignored_obstacles_with_photo => exact frame_draw_ignored_obstacles_with_photo g m
  case mop_path => exact frame_draw_mop_path g m
  case no_carpet_areas => exact frame_draw_no_carpet_areas g m
  case no_go_areas => exact frame_draw_no_go_areas g m
  case no_mopping_areas => exact frame_draw_no_mopping_areas g m
  case obstacles => exact frame_draw_obstacles g m
  case obstacles_with_photo => exact frame_draw_obstacles_with_photo g m
  case path => exact frame_draw_vacuum_path g m
  case predicted_path => exact frame_draw_predicted_path g m
  case room_names => exact frame_draw_room_names g m
  case vacuum_position => exact frame_draw_vacuum_position g m
  case virtual_walls => exact frame_draw_walls_r g m
  case zones => exact frame_draw_zones g m

lemma frame_foldl (g : ImageGenerator) :
    ∀ (ds : List Drawable) (m : MapData),
      map_frame m (ds.foldl (fun acc d => g.dispatch acc d) m) := by
  intro ds
  induction ds with
  | nil => intro m; exact map_frame_refl m
  | cons d ds ih =>
    intro m
    exact map_frame_trans (frame_dispatch g m d) (ih (g.dispatch m d))

lemma frame_rotate_step (g : ImageGenerator) (n : MapData) :
    map_frame n (g.rotate_step n) := by
  unfold ImageGenerator.rotate_step
  rcases hni : n.image with _ | i
  · exact map_frame_refl n
  · exact map_frame_set_image n i _ hni (data_only_rotate g i)

lemma frame_texts_step (g : ImageGenerator) (n : MapData) :
    map_frame n (g.texts_step n) := by
  unfold ImageGenerator.texts_step
  rcases hni : n.image with _ | i
  · exact map_frame_refl n
  · exact map_frame_set_image n i _ hni (data_only_draw_texts g i)

/-- C3 counterexample: the claim as stated fails on the vacuum heading:
drawing a vacuum whose angle is None writes 0 back into
`map_data.vacuum_position.a` (image_generator.py lines 315-316), so a
field other than the pixel buffer changes. -/
theorem draw_map_frame_cex :
    (vacuum_only_gen.draw_map vacuum_no_angle_map).vacuum_position
      ≠ vacuum_no_angle_map.vacuum_position := by
  have h : (vacuum_only_gen.draw_map vacuum_no_angle_map).vacuum_position
      = some ⟨1, 2, some 0⟩ := rfl
  rw [h]
  have h2 : vacuum_no_angle_map.vacuum_position = some ⟨1, 2, none⟩ := rfl
  rw [h2]
  simp

/-- C3 amended: `draw_map` leaves every model field unchanged except the
image's pixel buffer, and the vacuum position, which is unchanged unless
its heading was None and the vacuum was drawn, in which case the heading
becomes 0. -/
theorem draw_map_frame (g : ImageGenerator) (m : MapData) :
    map_frame m (g.draw_map m) := by
  unfold ImageGenerator.draw_map
  rcases hi : m.image with _ | img
  · exact map_frame_refl m
  · exact map_frame_trans
      (map_frame_trans (frame_foldl g g.drawables m)
        (frame_rotate_step g (g.drawables.foldl (fun acc d => g.dispatch acc d) m)))
      (frame_texts_step g
        (g.rotate_step (g.drawables.foldl (fun acc d => g.dispatch acc d) m)))

end VMP
